import Mathlib

/-!
# CSP-NET: the route registry (`src/src/app/Router.h`, `src/src/app/Router.cpp`)

A shallow embedding of `CSPNet::App::Router` and its four methods, of the
application that uses it, of the pages it shows and of the data model,
followed by their properties.

Modelling decisions.

* `std::function<void()>` is a closure object: either empty or holding a
  target.  Closure objects are values of a type `H`; what a closure does when
  it is called is given by an interpretation `call : H → World H E → Outcome
  (World H E)`, which is arbitrary.  A closure may therefore read and write the
  Router it is registered in (as the lambdas of `Application.cpp` do through
  `setCurrentRoute`) as well as everything else it captured (`E`).
* Calling a closure either returns or exits by an exception; in both cases the
  program state reached is kept.  Calling an empty `std::function` throws
  `std::bad_function_call`.  Closures that do not terminate are outside the
  model (`call` is a total function).
* `std::unordered_map<std::string, std::function<void()>>` is a partial map
  `String → Option (StdFunction H)`; `find` is application, `operator[]`
  followed by assignment is a point update.
* `navigate` is instrumented with the list of slots whose function object it
  calls (line 18) and with the lines it writes to `std::cout` (lines 19, 21).
-/

namespace CSPNet
namespace App

/-! ## Data model -/

/-- The exceptions that can leave a call of a `std::function<void()>`. -/
inductive Exn where
  /-- Thrown by `std::function::operator()` when the function object is empty. -/
  | bad_function_call
  /-- Any exception thrown by the body of a closure. -/
  | thrown (what : String)
  deriving DecidableEq, Repr

/-- How a `void` procedure ends: it returns, or an exception leaves it.  The
program state at that moment is recorded in both cases. -/
inductive Outcome (σ : Type) where
  | returned (s : σ)
  | raised (e : Exn) (s : σ)

/-- The program state in which the procedure ended. -/
def Outcome.state {σ : Type} : Outcome σ → σ
  | .returned s => s
  | .raised _ s => s

/-- The exception that left the procedure, if any. -/
def Outcome.exn {σ : Type} : Outcome σ → Option Exn
  | .returned _ => none
  | .raised e _ => some e

/-- A `std::function<void()>` object: empty, or holding the closure `h`. -/
inductive StdFunction (H : Type) where
  | empty
  | target (h : H)
  deriving DecidableEq, Repr

/-- A `Wt::WStackedWidget*`: `none` is `nullptr`, `some i` names a widget. -/
abbrev WStackedWidgetPtr := Option Nat

/-- The private members of `class Router` (Router.h, lines 20-22). -/
structure Router (H : Type) where
  contentStack_ : WStackedWidgetPtr
  routes_ : String → Option (StdFunction H)
  currentRoute_ : String

/-- The program state a closure runs in: the Router object and everything else
the closures captured. -/
structure World (H E : Type) where
  router : Router H
  env : E

/-- The interpretation of closure objects: what calling `h` does to the state. -/
abbrev Interp (H E : Type) := H → World H E → Outcome (World H E)

/-- What one method call on the Router did: the map slots whose function object
was called (key and stored function, in order), the lines written to
`std::cout`, and how the call ended. -/
structure Run (H E : Type) where
  invoked : List (String × StdFunction H)
  out : List String
  outcome : Outcome (World H E)

/-! ## Operations -/

/-- The call operator `std::function<void()>::operator()`. -/
def StdFunction.invoke {H E : Type} (call : Interp H E) :
    StdFunction H → World H E → Outcome (World H E)
  | .empty, w => .raised .bad_function_call w
  | .target h, w => call h w

/-- The constructor `Router::Router(Wt::WStackedWidget* contentStack)` (Router.cpp, lines 7-8):
no route, current route `"home"`. -/
def Router.new {H : Type} (contentStack : WStackedWidgetPtr) : Router H :=
  { contentStack_ := contentStack
    routes_ := fun _ => none
    currentRoute_ := "home" }

/-- Method `Router::addRoute` (Router.cpp, lines 10-12): `routes_[path] = handler;`. -/
def Router.addRoute {H : Type} (path : String) (handler : StdFunction H)
    (r : Router H) : Router H :=
  { r with routes_ := fun k => if k = path then some handler else r.routes_ k }

/-- Method `Router::setCurrentRoute` (Router.cpp, lines 25-27): `currentRoute_ = path;`. -/
def Router.setCurrentRoute {H : Type} (path : String) (r : Router H) : Router H :=
  { r with currentRoute_ := path }

/-- Method `Router::getCurrentRoute` (Router.h, line 17). -/
def Router.getCurrentRoute {H : Type} (r : Router H) : String :=
  r.currentRoute_

/-- Method `Router::navigate` (Router.cpp, lines 14-23). -/
def Router.navigate {H E : Type} (call : Interp H E) (path : String)
    (w : World H E) : Run H E :=
  match w.router.routes_ path with                                   -- routes_.find(path)
  | some handler =>                                                  -- it != routes_.end()
    let w1 : World H E :=
      { w with router := { w.router with currentRoute_ := path } }   -- currentRoute_ = path;
    match handler.invoke call w1 with                                -- it->second();
    | .returned w2 =>
      { invoked := [(path, handler)]
        out := ["Navigated to: " ++ path]                            -- std::cout << ...
        outcome := .returned w2 }
    | .raised e w2 =>
      { invoked := [(path, handler)]
        out := []
        outcome := .raised e w2 }
  | none =>
    { invoked := []
      out := ["Route not found: " ++ path]
      outcome := .returned w }

/-- A method call on the Router object, with its arguments. -/
inductive RouterCall (H : Type) where
  | addRoute (path : String) (handler : StdFunction H)
  | navigate (path : String)
  | setCurrentRoute (path : String)
  | getCurrentRoute

/-- Performs one method call on the Router of the program state `w`.  Only
`navigate` calls a closure or writes to `std::cout`; `getCurrentRoute` is
`const`. -/
def Router.perform {H E : Type} (call : Interp H E) :
    RouterCall H → World H E → Run H E
  | .addRoute path handler, w =>
    { invoked := [], out := []
      outcome := .returned { w with router := w.router.addRoute path handler } }
  | .navigate path, w => Router.navigate call path w
  | .setCurrentRoute path, w =>
    { invoked := [], out := []
      outcome := .returned { w with router := w.router.setCurrentRoute path } }
  | .getCurrentRoute, w =>
    { invoked := [], out := [], outcome := .returned w }

/-! ## Example closures

Concrete closures for the scenarios of the specification. -/

/-- What the example closures captured by reference: a log of the closures that
ran and a log of the routes they read. -/
structure ProbeEnv where
  hits : List Nat
  seen : List String
  deriving DecidableEq, Repr

/-- Example closures. -/
inductive Probe where
  /-- The closure `[&]{ hits.push_back(id); }`. -/
  | mark (id : Nat)
  /-- The closure `[&]{ router.setCurrentRoute(dest); }`. -/
  | redirect (dest : String)
  /-- The closure `[]{ throw std::runtime_error(what); }`. -/
  | fail (what : String)
  /-- The closure `[&]{ seen.push_back(router.getCurrentRoute()); }`. -/
  | observe
  deriving DecidableEq, Repr

/-- The behaviour of the example closures. -/
def Probe.call : Interp Probe ProbeEnv
  | .mark id, w => .returned { w with env := { w.env with hits := w.env.hits ++ [id] } }
  | .redirect dest, w => .returned { w with router := w.router.setCurrentRoute dest }
  | .fail what, w => .raised (.thrown what) w
  | .observe, w =>
    .returned { w with env := { w.env with seen := w.env.seen ++ [w.router.getCurrentRoute] } }

/-- A program state with a freshly constructed Router and empty logs. -/
def Probe.fresh : World Probe ProbeEnv :=
  { router := Router.new none, env := { hits := [], seen := [] } }

/-- Scenario A: `register("home", f1); register("credits", f2)`. -/
def Probe.scenarioA : World Probe ProbeEnv :=
  { Probe.fresh with
    router := (Probe.fresh.router.addRoute "home" (.target (.mark 1))).addRoute
      "credits" (.target (.mark 2)) }

/-- Scenario C: `register("home", f1)`. -/
def Probe.scenarioC : World Probe ProbeEnv :=
  { Probe.fresh with router := Probe.fresh.router.addRoute "home" (.target (.mark 1)) }

/-- Scenario D: `register("a", f1); register("a", f2)`. -/
def Probe.scenarioD : World Probe ProbeEnv :=
  { Probe.fresh with
    router := (Probe.fresh.router.addRoute "a" (.target (.mark 1))).addRoute
      "a" (.target (.mark 2)) }

/-- A Router whose route `"a"` is bound to a closure that stores `"b"` as the
current route: `register("a", [&]{ router.setCurrentRoute("b"); })`. -/
def Probe.redirecting : World Probe ProbeEnv :=
  { Probe.fresh with router := Probe.fresh.router.addRoute "a" (.target (.redirect "b")) }

/-- A Router whose route `"a"` is bound to an empty `std::function`:
`register("a", std::function<void()>())`. -/
def Probe.emptyBound : World Probe ProbeEnv :=
  { Probe.fresh with router := Probe.fresh.router.addRoute "a" .empty }

/-- A Router whose route `"a"` is bound to a closure that throws:
`register("a", []{ throw std::runtime_error("boom"); })`. -/
def Probe.failing : World Probe ProbeEnv :=
  { Probe.fresh with router := Probe.fresh.router.addRoute "a" (.target (.fail "boom")) }

/-- A Router whose current route is `"credits"` and whose route `"home"` is
bound to a closure that logs the current route it reads:
`setCurrentRoute("credits"); register("home", observe)`. -/
def Probe.observing : World Probe ProbeEnv :=
  { Probe.fresh with
    router := (Probe.fresh.router.setCurrentRoute "credits").addRoute "home"
      (.target .observe) }

/-- A Router whose current route is `"home"` and whose route `"credits"` is
bound to a closure that stores `"home"` as the current route:
`register("credits", [&]{ router.setCurrentRoute("home"); })`. -/
def Probe.bouncing : World Probe ProbeEnv :=
  { Probe.fresh with
    router := Probe.fresh.router.addRoute "credits" (.target (.redirect "home")) }

/-- The program states reachable from a freshly constructed Router by method
calls on it (a caller may go on after an exception left a call). -/
inductive Router.Reachable {H E : Type} (call : Interp H E) : World H E → Prop where
  | fresh (contentStack : WStackedWidgetPtr) (env : E) :
      Router.Reachable call { router := Router.new contentStack, env := env }
  | step (op : RouterCall H) (w : World H E) :
      Router.Reachable call w →
      Router.Reachable call (Router.perform call op w).outcome.state

end App
end CSPNet

/-!
# The widgets of the two pages and of the navigation bar

The page constructions build trees of `Wt` widgets.  A tree records, for every
container, its style class and its children in the order in which the source
adds them (through the container or through its layout), and for every text
and button its label.  Inline `style` attributes and hover handlers carry no
label and are not recorded.  A function of the source that adds one widget to
its parent is embedded as the widget it adds; the parent lists its children in
call order.
-/

namespace Wt

/-- A label of the page: the text of a `WText` or the caption of a
`WPushButton`. -/
inductive Label where
  | text (s : String)
  | button (s : String)
  deriving DecidableEq, Repr

/-- A tree of widgets: `WContainerWidget`, `WText`, `WPushButton`. -/
inductive Widget where
  | container (styleClass : String) (children : List Widget)
  | text (text : String) (styleClass : String)
  | button (text : String)

mutual
/-- The labels of a widget tree in document order. -/
def Widget.labels : Widget → List Label
  | .container _ children => Widget.labelsOfAll children
  | .text t _ => [.text t]
  | .button t => [.button t]
/-- The labels of a list of sibling widgets in document order. -/
def Widget.labelsOfAll : List Widget → List Label
  | [] => []
  | w :: ws => w.labels ++ Widget.labelsOfAll ws
end

/-- A `Wt::WText` the program keeps a pointer to: its text and its style
class. -/
structure WText where
  text : String
  styleClass : String
  deriving DecidableEq, Repr

/-- The setter `WWidget::setStyleClass`: replaces the style class. -/
def WText.setStyleClass (styleClass : String) (t : WText) : WText :=
  { t with styleClass := styleClass }

/-- A `Wt::WStackedWidget`: its pages and the index of the visible one (`-1`
while there is no page). -/
structure WStackedWidget where
  styleClass : String
  widgets : List Widget
  currentIndex : Int

/-- A stacked widget without pages. -/
def WStackedWidget.new : WStackedWidget :=
  { styleClass := "", widgets := [], currentIndex := -1 }

/-- The method `WStackedWidget::addWidget`: appends a page; the first page
added becomes the visible one. -/
def WStackedWidget.addWidget (page : Widget) (s : WStackedWidget) : WStackedWidget :=
  { s with
    widgets := s.widgets ++ [page]
    currentIndex := if s.currentIndex = -1 then 0 else s.currentIndex }

/-- The method `WStackedWidget::setCurrentIndex`. -/
def WStackedWidget.setCurrentIndex (index : Int) (s : WStackedWidget) : WStackedWidget :=
  { s with currentIndex := index }

end Wt

/-! ## The monolithic application (`Not USED/main.cpp`) -/

namespace CSPNetApp

/-- The method `CSPNetApp::createFeatureCard` (main.cpp, lines 545-557). -/
def createFeatureCard (title description : String) : Wt.Widget :=
  .container "feature-card" [.text title "feature-title", .text description "feature-desc"]

/-- The method `CSPNetApp::createCreditCard` (main.cpp, lines 559-571). -/
def createCreditCard (name role : String) : Wt.Widget :=
  .container "credit-card" [.text name "credit-name", .text role "credit-role"]

/-- The method `CSPNetApp::createHomePage` (main.cpp, lines 381-506): the page
it adds to the content stack. -/
def createHomePage : Wt.Widget :=
  .container "page" [                                           -- page
    .container "page-container" [                               -- container, layout
      .container "hero" [                                       -- hero
        .text "CSP-NET" "hero-title",
        .text "Premium Web Platform" "hero-subtitle"],
      .container "features" [                                   -- features
        createFeatureCard "Modern Architecture"
          "Built with Drogon C++ framework for high-performance backend operations",
        createFeatureCard "Premium UI"
          "Wt Framework components with Apple-inspired design system and interactions",
        createFeatureCard "Enterprise Ready"
          "Scalable, secure, and production-ready platform from day one"],
      .container "" [                                           -- buttonContainer
        .button "Get Started"],
      .container "tech-stack" [                                 -- techStack
        .text "Powered By" "tech-label",
        .text "Drogon • Wt Framework • C++17 • Modern Web Standards" "tech-items"]]]

/-- The method `CSPNetApp::createCreditsPage` (main.cpp, lines 508-543): the
page it adds to the content stack. -/
def createCreditsPage : Wt.Widget :=
  .container "page" [
    .container "page-container" [
      .container "hero" [
        .text "Credits" "hero-title",
        .text "Built with passion by" "hero-subtitle"],
      .container "credits-grid" [
        createCreditCard "Zerohexer" "Project Creator & Developer",
        createCreditCard "Claude Code" "AI Development Assistant"]]]

end CSPNetApp

namespace CSPNet

/-! ## The component factory (`src/components/ComponentFactory.cpp`) -/

namespace Components

/-- The function `ComponentFactory::createFeatureCard` (lines 7-21). -/
def ComponentFactory.createFeatureCard (title description : String) : Wt.Widget :=
  .container "feature-card" [.text title "feature-title", .text description "feature-desc"]

/-- The function `ComponentFactory::createCreditCard` (lines 23-37). -/
def ComponentFactory.createCreditCard (name role : String) : Wt.Widget :=
  .container "credit-card" [.text name "credit-name", .text role "credit-role"]

/-- The function `ComponentFactory::createGetStartedButton` (lines 39-71): the
button container it adds to its parent. -/
def ComponentFactory.createGetStartedButton : Wt.Widget :=
  .container "" [.button "Get Started"]

end Components

/-! ## The page builders (`src/builders/HomePageBuilder.cpp`,
`Not USED/builders/CreditsPageBuilder.cpp`) -/

namespace Builders

/-- The function `HomePageBuilder::buildHeroSection` (lines 45-76). -/
def HomePageBuilder.buildHeroSection : Wt.Widget :=
  .container "" [.text "CSP-NET" "", .text "Premium Web Platform" ""]

/-- The function `HomePageBuilder::buildFeaturesSection` (lines 78-94). -/
def HomePageBuilder.buildFeaturesSection : Wt.Widget :=
  .container "features" [
    Components.ComponentFactory.createFeatureCard "Modern Architecture"
      "Built with Drogon C++ framework for high-performance backend operations",
    Components.ComponentFactory.createFeatureCard "Premium UI"
      "Wt Framework components with Apple-inspired design system and interactions",
    Components.ComponentFactory.createFeatureCard "Enterprise Ready"
      "Scalable, secure, and production-ready platform from day one"]

/-- The function `HomePageBuilder::buildCtaSection` (lines 96-100). -/
def HomePageBuilder.buildCtaSection : Wt.Widget :=
  .container "" [Components.ComponentFactory.createGetStartedButton]

/-- The function `HomePageBuilder::build` (lines 8-18), with
`createPageContainer` and `setupPageLayout` (lines 20-43): the page it adds to
the content stack.  It builds three sections: hero, features, call to
action. -/
def HomePageBuilder.build : Wt.Widget :=
  .container "" [                                               -- createPageContainer
    .container "" [                                             -- setupPageLayout
      HomePageBuilder.buildHeroSection,
      HomePageBuilder.buildFeaturesSection,
      HomePageBuilder.buildCtaSection]]

/-- The function `CreditsPageBuilder::buildHeroSection` (lines 44-75). -/
def CreditsPageBuilder.buildHeroSection : Wt.Widget :=
  .container "" [.text "Credits" "", .text "Built with passion by" ""]

/-- The function `CreditsPageBuilder::buildCreditsGridSection` (lines 77-89). -/
def CreditsPageBuilder.buildCreditsGridSection : Wt.Widget :=
  .container "credits-grid" [
    Components.ComponentFactory.createCreditCard "Zerohexer" "Project Creator & Developer",
    Components.ComponentFactory.createCreditCard "Claude Code" "AI Development Assistant"]

/-- The function `CreditsPageBuilder::build` (lines 8-17), with
`createPageContainer` and `setupPageLayout` (lines 19-42). -/
def CreditsPageBuilder.build : Wt.Widget :=
  .container "" [
    .container "" [
      CreditsPageBuilder.buildHeroSection,
      CreditsPageBuilder.buildCreditsGridSection]]

end Builders

/-! ## The page views (`src/views/pages/HomePage.cpp`, `CreditsPage.cpp`) -/

namespace Views
namespace Pages

/-- The method `HomePage::createHeroSection` (lines 45-76). -/
def HomePage.createHeroSection : Wt.Widget :=
  .container "" [.text "CSP-NET" "", .text "Premium Web Platform" ""]

/-- The method `HomePage::createFeatureCard` (lines 88-100). -/
def HomePage.createFeatureCard (title description : String) : Wt.Widget :=
  .container "feature-card" [.text title "feature-title", .text description "feature-desc"]

/-- The method `HomePage::createFeaturesSection` (lines 78-86). -/
def HomePage.createFeaturesSection : Wt.Widget :=
  .container "features" [
    HomePage.createFeatureCard "Modern Architecture"
      "Built with Drogon C++ framework for high-performance backend operations",
    HomePage.createFeatureCard "Premium UI"
      "Wt Framework components with Apple-inspired design system and interactions",
    HomePage.createFeatureCard "Enterprise Ready"
      "Scalable, secure, and production-ready platform from day one"]

/-- The method `HomePage::createCTASection` (lines 102-177). -/
def HomePage.createCTASection : Wt.Widget :=
  .container "" [.button "Get Started"]

/-- The method `HomePage::createTechStackSection` (lines 179-192). -/
def HomePage.createTechStackSection : Wt.Widget :=
  .container "tech-stack" [
    .text "Powered By" "tech-label",
    .text "Drogon • Wt Framework • C++17 • Modern Web Standards" "tech-items"]

/-- The method `HomePage::createPageStructure` (lines 27-43): the container it
adds to the page, with its four sections. -/
def HomePage.createPageStructure : Wt.Widget :=
  .container "" [
    HomePage.createHeroSection,
    HomePage.createFeaturesSection,
    HomePage.createCTASection,
    HomePage.createTechStackSection]

/-- The constructor `HomePage::HomePage` with `setupPage` (lines 12-25): the
page widget. -/
def HomePage.new : Wt.Widget :=
  .container "" [HomePage.createPageStructure]

/-- The method `CreditsPage::createHeroSection` (lines 31-43). -/
def CreditsPage.createHeroSection : Wt.Widget :=
  .container "hero" [
    .text "Credits" "hero-title",
    .text "Built with passion by" "hero-subtitle"]

/-- The method `CreditsPage::createCreditCard` (lines 54-66). -/
def CreditsPage.createCreditCard (name role : String) : Wt.Widget :=
  .container "credit-card" [.text name "credit-name", .text role "credit-role"]

/-- The method `CreditsPage::createCreditsSection` (lines 45-52). -/
def CreditsPage.createCreditsSection : Wt.Widget :=
  .container "credits-grid" [
    CreditsPage.createCreditCard "Zerohexer" "Project Creator & Developer",
    CreditsPage.createCreditCard "Claude Code" "AI Development Assistant"]

/-- The method `CreditsPage::createPageStructure` (lines 20-29). -/
def CreditsPage.createPageStructure : Wt.Widget :=
  .container "page-container" [
    CreditsPage.createHeroSection,
    CreditsPage.createCreditsSection]

/-- The constructor `CreditsPage::CreditsPage` with `setupPage` (lines 11-18):
the page widget. -/
def CreditsPage.new : Wt.Widget :=
  .container "page" [CreditsPage.createPageStructure]

end Pages
end Views

end CSPNet

namespace CSPNet

/-! ## The navigation bar (`src/views/components/Navigation.cpp`) -/

namespace Views
namespace Components

/-- The members of `class Navigation` (Navigation.h, lines 19-22).  `N` is the
type of the closure objects `onNavigate_` may hold; the two item pointers are
`none` while they are `nullptr`. -/
structure Navigation (N : Type) where
  onNavigate_ : App.StdFunction N
  activePage_ : String
  homeNavItem_ : Option Wt.WText
  creditsNavItem_ : Option Wt.WText

/-- The method `Navigation::updateNavigationStyles` (lines 60-76). -/
def Navigation.updateNavigationStyles {N : Type} (n : Navigation N) : Navigation N :=
  let n1 : Navigation N :=
    match n.homeNavItem_ with                                        -- if (homeNavItem_)
    | some item =>
      if n.activePage_ = "home" then
        { n with homeNavItem_ := some (item.setStyleClass "nav-item active") }
      else
        { n with homeNavItem_ := some (item.setStyleClass "nav-item") }
    | none => n
  match n1.creditsNavItem_ with                                      -- if (creditsNavItem_)
  | some item =>
    if n1.activePage_ = "credits" then
      { n1 with creditsNavItem_ := some (item.setStyleClass "nav-item active") }
    else
      { n1 with creditsNavItem_ := some (item.setStyleClass "nav-item") }
  | none => n1

/-- The method `Navigation::setActivePage` (lines 55-58). -/
def Navigation.setActivePage {N : Type} (page : String) (n : Navigation N) : Navigation N :=
  Navigation.updateNavigationStyles { n with activePage_ := page }

/-- The method `Navigation::createNavigationStructure` (lines 20-53): creates
the two items, Home with class `"nav-item active"` and Credits with class
`"nav-item"`. -/
def Navigation.createNavigationStructure {N : Type} (n : Navigation N) : Navigation N :=
  { n with
    homeNavItem_ := some { text := "Home", styleClass := "nav-item active" }
    creditsNavItem_ := some { text := "Credits", styleClass := "nav-item" } }

/-- The constructor `Navigation::Navigation` with `setupNavigation` (lines
10-18). -/
def Navigation.new {N : Type} (onNavigate : App.StdFunction N) : Navigation N :=
  Navigation.createNavigationStructure
    { onNavigate_ := onNavigate
      activePage_ := "home"
      homeNavItem_ := none
      creditsNavItem_ := none }

/-- The style class of the Home item, if the item exists. -/
def Navigation.homeClass {N : Type} (n : Navigation N) : Option String :=
  n.homeNavItem_.map (fun item => item.styleClass)

/-- The style class of the Credits item, if the item exists. -/
def Navigation.creditsClass {N : Type} (n : Navigation N) : Option String :=
  n.creditsNavItem_.map (fun item => item.styleClass)

end Components

/-! ## The main layout (`src/views/layouts/MainLayout.cpp`) -/

namespace Layouts

/-- The closure `MainLayout` hands to its `Navigation` (lines 24-28):
`[this](const std::string& page) { if (navigationCallback_) navigationCallback_(page); }`. -/
inductive MainLayoutLambda where
  | forward
  deriving DecidableEq, Repr

/-- The members of `class MainLayout` (MainLayout.h, lines 23-25) once the
constructor has run, so that both pointers point to their widget.  `C` is the
type of the closure objects `navigationCallback_` may hold. -/
structure MainLayout (C : Type) where
  navigation_ : Components.Navigation MainLayoutLambda
  contentStack_ : Wt.WStackedWidget
  navigationCallback_ : App.StdFunction C

/-- The constructor `MainLayout::MainLayout` with `setupLayout` and
`createLayoutStructure` (lines 8-34). -/
def MainLayout.new {C : Type} : MainLayout C :=
  { navigation_ := Components.Navigation.new (.target .forward)
    contentStack_ := { Wt.WStackedWidget.new with styleClass := "content-stack" }
    navigationCallback_ := .empty }

/-- The accessor `MainLayout::getContentStack` (MainLayout.h, line 16). -/
def MainLayout.getContentStack {C : Type} (m : MainLayout C) : Wt.WStackedWidget :=
  m.contentStack_

/-- The accessor `MainLayout::getNavigation` (MainLayout.h, line 17). -/
def MainLayout.getNavigation {C : Type} (m : MainLayout C) :
    Components.Navigation MainLayoutLambda :=
  m.navigation_

/-- The method `MainLayout::setNavigationCallback` (lines 46-48). -/
def MainLayout.setNavigationCallback {C : Type} (callback : App.StdFunction C)
    (m : MainLayout C) : MainLayout C :=
  { m with navigationCallback_ := callback }

/-- The method `MainLayout::navigateToPage` (lines 36-44). -/
def MainLayout.navigateToPage {C : Type} (page : String) (m : MainLayout C) : MainLayout C :=
  if page = "home" then
    { m with
      contentStack_ := m.contentStack_.setCurrentIndex 0
      navigation_ := m.navigation_.setActivePage "home" }
  else if page = "credits" then
    { m with
      contentStack_ := m.contentStack_.setCurrentIndex 1
      navigation_ := m.navigation_.setActivePage "credits" }
  else m

end Layouts
end Views

/-! ## The application (`src/app/Application.cpp`) -/

namespace App

/-- The closures `Application::setupRouting` registers (lines 69-70):
`[this]() { navigateToHome(); }` and `[this]() { navigateToCredits(); }`. -/
inductive RouteLambda where
  | navigateToHome
  | navigateToCredits
  deriving DecidableEq, Repr

/-- The closure `Application::setupApplication` installs as navigation
callback (lines 35-37): `[this](const std::string& page) { handleNavigation(page); }`. -/
inductive NavigationLambda where
  | handleNavigation
  deriving DecidableEq, Repr

/-- The members of `class Application` other than `router_` (Application.h,
lines 18-27), with the window title.  The two controllers hold no data and the
style sheet takes no part in navigation; neither is recorded.  The page
pointers are `none` while they are `nullptr`. -/
structure ApplicationMembers where
  title : String
  mainLayout_ : Views.Layouts.MainLayout NavigationLambda
  homePage_ : Option Wt.Widget
  creditsPage_ : Option Wt.Widget

/-- An `Application` object once `router_` exists: the Router and the other
members, which is the program state the registered closures act on. -/
abbrev Application := World RouteLambda ApplicationMembers

/-- The widget `mainLayout_->getContentStack()` points to. -/
def Application.contentStackPtr : WStackedWidgetPtr := some 0

/-- The index of the visible page of the content stack. -/
def Application.visibleIndex (app : Application) : Int :=
  app.env.mainLayout_.getContentStack.currentIndex

/-- The active page of the navigation bar. -/
def Application.activePage (app : Application) : String :=
  app.env.mainLayout_.getNavigation.activePage_

/-- Runs `f` on the content stack of the main layout. -/
def Application.onContentStack (f : Wt.WStackedWidget → Wt.WStackedWidget)
    (app : Application) : Application :=
  { app with
    env := { app.env with
      mainLayout_ := { app.env.mainLayout_ with
        contentStack_ := f app.env.mainLayout_.contentStack_ } } }

/-- Runs `f` on the navigation bar of the main layout. -/
def Application.onNavigation
    (f : Views.Components.Navigation Views.Layouts.MainLayoutLambda →
      Views.Components.Navigation Views.Layouts.MainLayoutLambda)
    (app : Application) : Application :=
  { app with
    env := { app.env with
      mainLayout_ := { app.env.mainLayout_ with
        navigation_ := f app.env.mainLayout_.navigation_ } } }

/-- Runs `f` on the Router. -/
def Application.onRouter (f : Router RouteLambda → Router RouteLambda)
    (app : Application) : Application :=
  { app with router := f app.router }

/-- The method `Application::navigateToHome` (lines 84-91). -/
def Application.navigateToHome (app : Application) : Application :=
  let app1 := app.onContentStack (Wt.WStackedWidget.setCurrentIndex 0)
  let app2 := app1.onRouter (Router.setCurrentRoute "home")
  app2.onNavigation (Views.Components.Navigation.setActivePage "home")

/-- The method `Application::navigateToCredits` (lines 93-100). -/
def Application.navigateToCredits (app : Application) : Application :=
  let app1 := app.onContentStack (Wt.WStackedWidget.setCurrentIndex 1)
  let app2 := app1.onRouter (Router.setCurrentRoute "credits")
  app2.onNavigation (Views.Components.Navigation.setActivePage "credits")

/-- The method `Application::handleNavigation` (lines 102-108). -/
def Application.handleNavigation (page : String) (app : Application) : Application :=
  if page = "home" then app.navigateToHome
  else if page = "credits" then app.navigateToCredits
  else app

/-- What calling the two registered closures does. -/
def Application.call : Interp RouteLambda ApplicationMembers
  | .navigateToHome, app => .returned (Application.navigateToHome app)
  | .navigateToCredits, app => .returned (Application.navigateToCredits app)

/-- The method `Application::setupRouting` (lines 65-71): creates the Router
and registers the two routes. -/
def Application.setupRouting (members : ApplicationMembers) : Application :=
  let router_ : Router RouteLambda := Router.new Application.contentStackPtr
  let router_ := router_.addRoute "home" (.target .navigateToHome)
  let router_ := router_.addRoute "credits" (.target .navigateToCredits)
  { router := router_, env := members }

/-- The method `Application::setupPages` (lines 73-82). -/
def Application.setupPages (app : Application) : Application :=
  let app1 : Application :=
    { (app.onContentStack (Wt.WStackedWidget.addWidget Builders.HomePageBuilder.build)) with
      env.homePage_ := some Builders.HomePageBuilder.build }
  let app2 : Application :=
    { (app1.onContentStack (Wt.WStackedWidget.addWidget Builders.CreditsPageBuilder.build)) with
      env.creditsPage_ := some Builders.CreditsPageBuilder.build }
  app2.onContentStack (Wt.WStackedWidget.setCurrentIndex 0)

/-- The constructor `Application::Application` with `setupApplication` (lines
17-47): the application as it stands when construction ends. -/
def Application.setupApplication : Application :=
  let members : ApplicationMembers :=
    { title := "CSP-NET • Premium Platform"                            -- setTitle
      mainLayout_ := Views.Layouts.MainLayout.new                      -- MainLayout()
      homePage_ := none
      creditsPage_ := none }
  let members : ApplicationMembers :=                                  -- setNavigationCallback
    { members with
      mainLayout_ := members.mainLayout_.setNavigationCallback (.target .handleNavigation) }
  let app := Application.setupRouting members
  let app := Application.setupPages app
  Application.navigateToHome app

/-- The application after the navigation-link events `pages`, in order: each
event is a call `handleNavigation(page)`. -/
def Application.handleAll (pages : List String) (app : Application) : Application :=
  pages.foldl (fun a page => Application.handleNavigation page a) app

/-- The three pieces of navigation state agree: the Router's current route is
the navigation bar's active page, that page is `"home"` or `"credits"`, and
the visible index is `0` exactly for `"home"` and `1` exactly for
`"credits"`. -/
def Application.Consistent (app : Application) : Prop :=
  app.router.getCurrentRoute = app.activePage ∧
  (app.activePage = "home" ∨ app.activePage = "credits") ∧
  (app.visibleIndex = 0 ↔ app.activePage = "home") ∧
  (app.visibleIndex = 1 ↔ app.activePage = "credits")

/-- The states of the application after setup: the constructed application,
and every state reached from it by `handleNavigation(page)` or by
`router_->navigate(page)`. -/
inductive Application.Reachable : Application → Prop where
  | setup : Application.Reachable Application.setupApplication
  | handleNavigation (page : String) (app : Application) :
      Application.Reachable app →
      Application.Reachable (Application.handleNavigation page app)
  | navigate (page : String) (app : Application) :
      Application.Reachable app →
      Application.Reachable (Router.navigate Application.call page app).outcome.state

end App
end CSPNet

namespace CSPNet
namespace App

/-! ## Sequences of method calls on the Router -/

/-- The program state after the method calls `ops` on the Router, in order (a
caller may go on after an exception left a call). -/
def Router.performAll {H E : Type} (call : Interp H E) (ops : List (RouterCall H))
    (w : World H E) : World H E :=
  ops.foldl (fun s op => (Router.perform call op s).outcome.state) w

/-- The function object most recently registered for `k`: the handler of the
last `addRoute(k, handler)` among `ops`, or `c` (the one registered before
`ops`) if there is none. -/
def RouterCall.lastRegistered {H : Type} (k : String) :
    List (RouterCall H) → StdFunction H → StdFunction H
  | [], c => c
  | .addRoute path handler :: ops, c =>
    if path = k then RouterCall.lastRegistered k ops handler
    else RouterCall.lastRegistered k ops c
  | .navigate _ :: ops, c => RouterCall.lastRegistered k ops c
  | .setCurrentRoute _ :: ops, c => RouterCall.lastRegistered k ops c
  | .getCurrentRoute :: ops, c => RouterCall.lastRegistered k ops c

/-- Whether the method call is `addRoute` or `navigate`. -/
def RouterCall.isAddRouteOrNavigate {H : Type} : RouterCall H → Bool
  | .addRoute _ _ => true
  | .navigate _ => true
  | .setCurrentRoute _ => false
  | .getCurrentRoute => false

/-- Example closures that do not touch the Router: closure `id` is
`[&hits, id]{ hits.push_back(id); }`. -/
def Marker.call : Interp Nat (List Nat) :=
  fun id w => .returned { w with env := w.env ++ [id] }

/-- A program state with a freshly constructed Router and an empty log. -/
def Marker.fresh : World Nat (List Nat) :=
  { router := Router.new none, env := [] }

/-- The call operator `std::function<void(const std::string&)>::operator()`:
`callN` says what calling the closure `c` with an argument does to the program
state. -/
def StdFunction.invokeWith {N σ : Type} (callN : N → String → σ → Outcome σ) :
    StdFunction N → String → σ → Outcome σ
  | .empty, _, s => .raised .bad_function_call s
  | .target c, arg, s => callN c arg s

end App

/-! ## Navigation events -/

namespace Views
namespace Components

/-- The handler connected to the Home item (Navigation.cpp, lines 43-45):
`[=]() { onNavigate_("home"); }`.  `self` reads the navigation bar off the
program state. -/
def Navigation.homeClicked {N σ : Type} (callN : N → String → σ → App.Outcome σ)
    (self : σ → Navigation N) (s : σ) : App.Outcome σ :=
  (self s).onNavigate_.invokeWith callN "home" s

/-- The handler connected to the Credits item (Navigation.cpp, lines 50-52):
`[=]() { onNavigate_("credits"); }`. -/
def Navigation.creditsClicked {N σ : Type} (callN : N → String → σ → App.Outcome σ)
    (self : σ → Navigation N) (s : σ) : App.Outcome σ :=
  (self s).onNavigate_.invokeWith callN "credits" s

end Components

namespace Layouts

/-- What one call of the closure `MainLayout` hands to its `Navigation` did:
the function objects it called, each with its argument, and how it ended. -/
structure Forwarding (C σ : Type) where
  called : List (App.StdFunction C × String)
  outcome : App.Outcome σ

/-- The body of the closure `MainLayout` hands to its `Navigation`
(MainLayout.cpp, lines 24-28):
`if (navigationCallback_) { navigationCallback_(page); }`.  `self` reads the
main layout off the program state; `callNav` says what calling an installed
closure does. -/
def MainLayout.forward {C σ : Type} (callNav : C → String → σ → App.Outcome σ)
    (self : σ → MainLayout C) (page : String) (s : σ) : Forwarding C σ :=
  match (self s).navigationCallback_ with
  | .target callback =>                                            -- if (navigationCallback_)
    { called := [(.target callback, page)]
      outcome := (App.StdFunction.target callback).invokeWith callNav page s }
  | .empty =>
    { called := [], outcome := .returned s }

/-- What calling the closure `MainLayout` hands to its `Navigation` does. -/
def MainLayoutLambda.call {C σ : Type} (callNav : C → String → σ → App.Outcome σ)
    (self : σ → MainLayout C) : MainLayoutLambda → String → σ → App.Outcome σ
  | .forward, page, s => (MainLayout.forward callNav self page s).outcome

end Layouts
end Views

namespace App

/-- What calling the navigation callback of the application does
(Application.cpp, lines 35-37): it runs `handleNavigation(page)`. -/
def Application.callNavigation : NavigationLambda → String → Application → Outcome Application
  | .handleNavigation, page, app => .returned (Application.handleNavigation page app)

/-- The main layout of the application. -/
def Application.mainLayout (app : Application) : Views.Layouts.MainLayout NavigationLambda :=
  app.env.mainLayout_

end App

/-! ## The data model (`src/models/FeatureModel.h`, `FeatureModel.cpp`) -/

namespace Models

/-- The struct `FeatureModel` (FeatureModel.h, lines 8-15). -/
structure FeatureModel where
  title : String
  description : String
  icon : String
  deriving DecidableEq, Repr

/-- The struct `CreditModel` (FeatureModel.h, lines 17-24). -/
structure CreditModel where
  name : String
  role : String
  avatar : String
  deriving DecidableEq, Repr

/-- The function `AppData::getFeatures` (FeatureModel.cpp, lines 6-24). -/
def AppData.getFeatures : List FeatureModel :=
  [ { title := "Modern Architecture"
      description := "Built with Drogon C++ framework for high-performance backend operations"
      icon := "⚡" },
    { title := "Premium UI"
      description := "Wt Framework components with Apple-inspired design system and interactions"
      icon := "🎨" },
    { title := "Enterprise Ready"
      description := "Scalable, secure, and production-ready platform from day one"
      icon := "🏢" } ]

/-- The function `AppData::getCredits` (FeatureModel.cpp, lines 26-39). -/
def AppData.getCredits : List CreditModel :=
  [ { name := "Zerohexer", role := "Project Creator & Developer", avatar := "👨‍💻" },
    { name := "Claude Code", role := "AI Development Assistant", avatar := "🤖" } ]

end Models

end CSPNet

namespace Wt

/-- The two texts of a card: a container that holds exactly two `WText`. -/
def Widget.cardTexts : Widget → Option (String × String)
  | .container _ [.text first _, .text second _] => some (first, second)
  | _ => none

/-- The cards of a section, in order: for each child of the container its two
texts, or `none` for a child that is not a card. -/
def Widget.cards : Widget → List (Option (String × String))
  | .container _ children => children.map Widget.cardTexts
  | _ => []

end Wt

/-! ## The page switch of the monolithic application (`Not USED/main.cpp`) -/

/-- The members of `class CSPNetApp` (main.cpp, lines 24-26) once the
constructor has created the widgets they point to. -/
structure CSPNetApp where
  contentStack_ : Wt.WStackedWidget
  homeNavItem_ : Wt.WText
  creditsNavItem_ : Wt.WText

/-- The method `CSPNetApp::showHomePage` (main.cpp, lines 573-577). -/
def CSPNetApp.showHomePage (app : CSPNetApp) : CSPNetApp :=
  { contentStack_ := app.contentStack_.setCurrentIndex 0
    homeNavItem_ := app.homeNavItem_.setStyleClass "nav-item active"
    creditsNavItem_ := app.creditsNavItem_.setStyleClass "nav-item" }

/-- The method `CSPNetApp::showCreditsPage` (main.cpp, lines 579-583). -/
def CSPNetApp.showCreditsPage (app : CSPNetApp) : CSPNetApp :=
  { contentStack_ := app.contentStack_.setCurrentIndex 1
    homeNavItem_ := app.homeNavItem_.setStyleClass "nav-item"
    creditsNavItem_ := app.creditsNavItem_.setStyleClass "nav-item active" }

/-- The constructor `CSPNetApp::CSPNetApp` (main.cpp, lines 29-56):
`createNavigation` creates the two items, then the content stack is created
and gets the two pages, then `showHomePage` runs. -/
def CSPNetApp.new : CSPNetApp :=
  let app : CSPNetApp :=
    { homeNavItem_ := { text := "Home", styleClass := "nav-item active" }
      creditsNavItem_ := { text := "Credits", styleClass := "nav-item" }
      contentStack_ := { Wt.WStackedWidget.new with styleClass := "content-stack" } }
  let app := { app with contentStack_ := app.contentStack_.addWidget CSPNetApp.createHomePage }
  let app := { app with contentStack_ := app.contentStack_.addWidget CSPNetApp.createCreditsPage }
  app.showHomePage

namespace CSPNet
namespace App

/-! ## Basic facts about `navigate` -/

section Lemmas

variable {H E : Type}

/-- On a registered key, `navigate` calls the stored function object once, from
the state in which the current route is already the key, and ends as that call
ends. -/
theorem Router.navigate_of_some (call : Interp H E) (w : World H E) (path : String)
    (f : StdFunction H) (h : w.router.routes_ path = some f) :
    (Router.navigate call path w).invoked = [(path, f)] ∧
    (Router.navigate call path w).outcome =
      f.invoke call { w with router := w.router.setCurrentRoute path } := by
  unfold Router.navigate
  simp only [h, Router.setCurrentRoute]
  split <;> simp_all

/-- On an unregistered key, `navigate` only writes the diagnostic line. -/
theorem Router.navigate_of_none (call : Interp H E) (w : World H E) (path : String)
    (h : w.router.routes_ path = none) :
    Router.navigate call path w =
      { invoked := [], out := ["Route not found: " ++ path], outcome := .returned w } := by
  unfold Router.navigate
  simp only [h]

/-- A point update of the map reads back the stored function at the key. -/
theorem Router.addRoute_routes_self (r : Router H) (k : String) (c : StdFunction H) :
    (r.addRoute k c).routes_ k = some c := by
  simp [Router.addRoute]

/-- A point update of the map leaves every other key as it was. -/
theorem Router.addRoute_routes_other (r : Router H) (k k' : String) (c : StdFunction H)
    (hne : k' ≠ k) : (r.addRoute k c).routes_ k' = r.routes_ k' := by
  simp [Router.addRoute, hne]

/-- Registering a key twice leaves the Router as if only the second
registration had happened. -/
theorem Router.addRoute_addRoute (r : Router H) (k : String) (c1 c2 : StdFunction H) :
    (r.addRoute k c1).addRoute k c2 = r.addRoute k c2 := by
  unfold Router.addRoute
  congr 1
  funext k'
  by_cases hk : k' = k <;> simp [hk]

end Lemmas

/-! ## The route registry: claims C1 to C10 -/

/-- C1 (as stated, refuted): a registered callback can itself store another
current route.  With `"a"` bound to a closure that calls
`setCurrentRoute("b")`, `navigate("a")` calls that closure once and returns,
and `getCurrentRoute()` is then `"b"`, not `"a"`. -/
theorem C1_counterexample :
    Probe.redirecting.router.routes_ "a" = some (.target (.redirect "b")) ∧
    (Router.navigate Probe.call "a" Probe.redirecting).invoked
      = [("a", .target (.redirect "b"))] ∧
    (Router.navigate Probe.call "a" Probe.redirecting).outcome.exn = none ∧
    (Router.navigate Probe.call "a" Probe.redirecting).outcome.state.router.getCurrentRoute
      = "b" ∧
    "b" ≠ "a" := by
  refine ⟨rfl, rfl, rfl, rfl, by decide⟩

/-- C1 (amended): for every Router state and every key `k` registered with
callback `c`, `navigate(k)` calls `c` exactly once and nothing else: the slot
of `k` is the only one called, and `navigate` ends exactly as one call of `c`
ends when started in the state whose current route is already `k`.  If that
call of `c` ends with the current-route field still `k`, `getCurrentRoute()`
returns `k` afterwards. -/
theorem C1_navigate_registered {H E : Type} (call : Interp H E) (w : World H E)
    (k : String) (c : StdFunction H)
    (hreg : w.router.routes_ k = some c)
    (hkeep : (c.invoke call
      { w with router := w.router.setCurrentRoute k }).state.router.getCurrentRoute = k) :
    (Router.navigate call k w).invoked = [(k, c)] ∧
    (Router.navigate call k w).outcome =
      c.invoke call { w with router := w.router.setCurrentRoute k } ∧
    (Router.navigate call k w).outcome.state.router.getCurrentRoute = k := by
  obtain ⟨hinv, hout⟩ := Router.navigate_of_some call w k c hreg
  exact ⟨hinv, hout, by rw [hout]; exact hkeep⟩

/-- C1, at a concrete input: with `"home"` bound to a closure that logs its
run, `navigate("home")` runs it once and the current route is `"home"`. -/
theorem C1_navigate_registered_witness :
    Probe.scenarioC.router.routes_ "home" = some (.target (.mark 1)) ∧
    ((Router.navigate Probe.call "home" Probe.scenarioC).invoked
        = [("home", .target (.mark 1))] ∧
      (Router.navigate Probe.call "home" Probe.scenarioC).outcome =
        (StdFunction.target (Probe.mark 1)).invoke Probe.call
          { Probe.scenarioC with router := Probe.scenarioC.router.setCurrentRoute "home" } ∧
      (Router.navigate Probe.call "home" Probe.scenarioC).outcome.state.router.getCurrentRoute
        = "home") ∧
    (Router.navigate Probe.call "home" Probe.scenarioC).outcome.state.env.hits = [1] :=
  ⟨rfl, C1_navigate_registered Probe.call Probe.scenarioC "home" (.target (.mark 1)) rfl rfl,
    rfl⟩

/-- C2: for every Router state and every key `k` that is not registered,
`navigate(k)` calls no callback and returns with the whole program state
unchanged; in particular `getCurrentRoute()` returns what it returned before
and the key-to-callback mapping is the same (the lookup inserts nothing, `k`
is still unregistered).  The only effect is the diagnostic line. -/
theorem C2_navigate_unregistered {H E : Type} (call : Interp H E) (w : World H E)
    (k : String) (hnone : w.router.routes_ k = none) :
    (Router.navigate call k w).invoked = [] ∧
    (Router.navigate call k w).outcome = .returned w ∧
    (Router.navigate call k w).outcome.state.router.getCurrentRoute
      = w.router.getCurrentRoute ∧
    (Router.navigate call k w).outcome.state.router.routes_ = w.router.routes_ ∧
    (Router.navigate call k w).outcome.state.router.routes_ k = none ∧
    (Router.navigate call k w).out = ["Route not found: " ++ k] := by
  rw [Router.navigate_of_none call w k hnone]
  exact ⟨rfl, rfl, rfl, rfl, hnone, rfl⟩

/-- C2, at Scenario C: `register("home", f1); navigate("missing")` does not run
`f1` and leaves the state as it was. -/
theorem C2_navigate_unregistered_witness :
    Probe.scenarioC.router.routes_ "missing" = none ∧
    ((Router.navigate Probe.call "missing" Probe.scenarioC).invoked = [] ∧
      (Router.navigate Probe.call "missing" Probe.scenarioC).outcome
        = .returned Probe.scenarioC ∧
      (Router.navigate Probe.call "missing" Probe.scenarioC).outcome.state.router.getCurrentRoute
        = Probe.scenarioC.router.getCurrentRoute ∧
      (Router.navigate Probe.call "missing" Probe.scenarioC).outcome.state.router.routes_
        = Probe.scenarioC.router.routes_ ∧
      (Router.navigate Probe.call "missing" Probe.scenarioC).outcome.state.router.routes_
        "missing" = none ∧
      (Router.navigate Probe.call "missing" Probe.scenarioC).out
        = ["Route not found: " ++ "missing"]) ∧
    (Router.navigate Probe.call "missing" Probe.scenarioC).outcome.state.env.hits = [] :=
  ⟨rfl, C2_navigate_unregistered Probe.call Probe.scenarioC "missing" rfl, rfl⟩

/-- C3: for every Router state, key `k` and callbacks `c1`, `c2`: both
registrations return without an exception and call nothing; after
`addRoute(k, c1)` followed by `addRoute(k, c2)` the Router is the one that
`addRoute(k, c2)` alone would have produced, so nothing of `c1` is left; and
`navigate(k)` then calls the slot of `k` once, holding `c2`, and ends as that
one call of `c2` ends. -/
theorem C3_last_registration_wins {H E : Type} (call : Interp H E) (w : World H E)
    (k : String) (c1 c2 : StdFunction H) :
    (Router.perform call (.addRoute k c1) w).outcome
      = .returned { w with router := w.router.addRoute k c1 } ∧
    (Router.perform call (.addRoute k c1) w).invoked = [] ∧
    (Router.perform call (.addRoute k c2)
        { w with router := w.router.addRoute k c1 }).outcome
      = .returned { w with router := (w.router.addRoute k c1).addRoute k c2 } ∧
    (Router.perform call (.addRoute k c2)
        { w with router := w.router.addRoute k c1 }).invoked = [] ∧
    (w.router.addRoute k c1).addRoute k c2 = w.router.addRoute k c2 ∧
    (Router.navigate call k
        { w with router := (w.router.addRoute k c1).addRoute k c2 }).invoked = [(k, c2)] ∧
    (Router.navigate call k
        { w with router := (w.router.addRoute k c1).addRoute k c2 }).outcome
      = c2.invoke call
          { w with router := ((w.router.addRoute k c1).addRoute k c2).setCurrentRoute k } := by
  have hreg : ({ w with router := (w.router.addRoute k c1).addRoute k c2 }
      : World H E).router.routes_ k = some c2 :=
    Router.addRoute_routes_self _ k c2
  obtain ⟨hinv, hout⟩ := Router.navigate_of_some call _ k c2 hreg
  exact ⟨rfl, rfl, rfl, rfl, Router.addRoute_addRoute w.router k c1 c2, hinv, hout⟩

/-- C3, at Scenario D: `register("a", f1); register("a", f2); navigate("a")`
runs `f2` only. -/
theorem C3_last_registration_wins_witness :
    (Router.navigate Probe.call "a" Probe.scenarioD).invoked = [("a", .target (.mark 2))] ∧
    (Router.navigate Probe.call "a" Probe.scenarioD).outcome.state.env.hits = [2] ∧
    (Router.navigate Probe.call "a" Probe.scenarioD).outcome.exn = none :=
  ⟨(C3_last_registration_wins Probe.call Probe.fresh "a" (.target (.mark 1))
      (.target (.mark 2))).2.2.2.2.2.1, rfl, rfl⟩

/-- C4: for every Router state and every string `k`, registered or not,
`setCurrentRoute(k)` returns, calls no callback and writes nothing; afterwards
`getCurrentRoute()` returns `k`, and the key-to-callback mapping and
everything outside the Router are unchanged. -/
theorem C4_setCurrentRoute {H E : Type} (call : Interp H E) (w : World H E) (k : String) :
    (Router.perform call (.setCurrentRoute k) w).invoked = [] ∧
    (Router.perform call (.setCurrentRoute k) w).out = [] ∧
    (Router.perform call (.setCurrentRoute k) w).outcome
      = .returned { w with router := w.router.setCurrentRoute k } ∧
    (Router.perform call (.setCurrentRoute k) w).outcome.state.router.getCurrentRoute = k ∧
    (Router.perform call (.setCurrentRoute k) w).outcome.state.router.routes_
      = w.router.routes_ ∧
    (Router.perform call (.setCurrentRoute k) w).outcome.state.env = w.env :=
  ⟨rfl, rfl, rfl, rfl, rfl, rfl⟩

/-- C5: a freshly constructed Router has no registered route and its
`getCurrentRoute()` returns `"home"`; `navigate("home")` on it calls no
callback, returns with the state unchanged, and `getCurrentRoute()` still
returns `"home"`. -/
theorem C5_fresh_router {H E : Type} (call : Interp H E) (contentStack : WStackedWidgetPtr)
    (env : E) :
    (∀ k, (Router.new contentStack : Router H).routes_ k = none) ∧
    (Router.new contentStack : Router H).getCurrentRoute = "home" ∧
    (Router.navigate call "home" { router := Router.new contentStack, env := env }).invoked
      = [] ∧
    (Router.navigate call "home" { router := Router.new contentStack, env := env }).outcome
      = .returned { router := Router.new contentStack, env := env } ∧
    (Router.navigate call "home"
        { router := Router.new contentStack, env := env }).outcome.state.router.getCurrentRoute
      = "home" :=
  ⟨fun _ => rfl, rfl, rfl, rfl, rfl⟩

/-- C6: for every Router state, key `k` and callback `c`, `addRoute(k, c)`
returns, calls no callback and writes nothing; afterwards `k` is bound to `c`,
`getCurrentRoute()` returns what it returned before, every key `k2` other than
`k` is bound (or unbound) exactly as before, and everything outside the
mapping is unchanged. -/
theorem C6_addRoute_frame {H E : Type} (call : Interp H E) (w : World H E) (k : String)
    (c : StdFunction H) (k2 : String) (hne : k2 ≠ k) :
    (Router.perform call (.addRoute k c) w).invoked = [] ∧
    (Router.perform call (.addRoute k c) w).out = [] ∧
    (Router.perform call (.addRoute k c) w).outcome
      = .returned { w with router := w.router.addRoute k c } ∧
    (Router.perform call (.addRoute k c) w).outcome.state.router.routes_ k = some c ∧
    (Router.perform call (.addRoute k c) w).outcome.state.router.routes_ k2
      = w.router.routes_ k2 ∧
    (Router.perform call (.addRoute k c) w).outcome.state.router.getCurrentRoute
      = w.router.getCurrentRoute ∧
    (Router.perform call (.addRoute k c) w).outcome.state.router.contentStack_
      = w.router.contentStack_ ∧
    (Router.perform call (.addRoute k c) w).outcome.state.env = w.env :=
  ⟨rfl, rfl, rfl, Router.addRoute_routes_self w.router k c,
    Router.addRoute_routes_other w.router k k2 c hne, rfl, rfl, rfl⟩

/-- C6, at a concrete input: on Scenario C (`"home"` bound to `f1`),
`addRoute("credits", f2)` binds `"credits"` and leaves `"home"` bound to `f1`. -/
theorem C6_addRoute_frame_witness :
    "home" ≠ "credits" ∧
    (Router.perform Probe.call (.addRoute "credits" (.target (.mark 2)))
        Probe.scenarioC).invoked = [] ∧
    (Router.perform Probe.call (.addRoute "credits" (.target (.mark 2)))
        Probe.scenarioC).outcome.state.router.routes_ "credits" = some (.target (.mark 2)) ∧
    (Router.perform Probe.call (.addRoute "credits" (.target (.mark 2)))
        Probe.scenarioC).outcome.state.router.routes_ "home" = some (.target (.mark 1)) ∧
    (Router.perform Probe.call (.addRoute "credits" (.target (.mark 2)))
        Probe.scenarioC).outcome.state.router.getCurrentRoute = "home" :=
  have h := C6_addRoute_frame Probe.call Probe.scenarioC "credits" (.target (.mark 2))
    "home" (by decide)
  ⟨by decide, h.1, h.2.2.2.1, h.2.2.2.2.1, h.2.2.2.2.2.1⟩

/-- C7: for every registered key `k`, `navigate(k)` writes the current-route
field before it runs the callback.  If the callback bound to `k` is a closure
that reads `getCurrentRoute()` on the same Router and records what it read
(`record`), then `navigate(k)` returns with `k` recorded, whatever the current
route was before the call. -/
theorem C7_callback_observes_key {H E : Type} (call : Interp H E) (w : World H E)
    (k : String) (h : H) (record : String → E → E)
    (hreg : w.router.routes_ k = some (.target h))
    (hobs : ∀ s : World H E, call h s
      = .returned { s with env := record s.router.getCurrentRoute s.env }) :
    (Router.navigate call k w).invoked = [(k, .target h)] ∧
    (Router.navigate call k w).outcome
      = .returned { router := w.router.setCurrentRoute k, env := record k w.env } := by
  obtain ⟨hinv, hout⟩ := Router.navigate_of_some call w k (.target h) hreg
  refine ⟨hinv, ?_⟩
  rw [hout]
  simp only [StdFunction.invoke, hobs]
  rfl

/-- C7, at a concrete input: the current route is `"credits"` and `"home"` is
bound to the closure that logs the route it reads; `navigate("home")` logs
`"home"`, not `"credits"`. -/
theorem C7_callback_observes_key_witness :
    Probe.observing.router.getCurrentRoute = "credits" ∧
    Probe.observing.router.routes_ "home" = some (.target .observe) ∧
    ((Router.navigate Probe.call "home" Probe.observing).invoked
        = [("home", .target .observe)] ∧
      (Router.navigate Probe.call "home" Probe.observing).outcome
        = .returned { router := Probe.observing.router.setCurrentRoute "home",
                      env := { Probe.observing.env with
                               seen := Probe.observing.env.seen ++ ["home"] } }) ∧
    (Router.navigate Probe.call "home" Probe.observing).outcome.state.env.seen = ["home"] :=
  ⟨rfl, rfl,
    C7_callback_observes_key Probe.call Probe.observing "home" .observe
      (fun route env => { env with seen := env.seen ++ [route] }) rfl (fun _ => rfl),
    rfl⟩

/-- C8: for every Router state with two distinct registered keys `k1` and
`k2`, `navigate(k2)` calls the slot of `k2` once and no other slot: every slot
it calls has key `k2`, so the function stored under `k1` (or under any other
key) is not called, and `navigate` ends as the one call of the function stored
under `k2` ends. -/
theorem C8_only_target_invoked {H E : Type} (call : Interp H E) (w : World H E)
    (k1 k2 : String) (c1 c2 : StdFunction H) (hne : k1 ≠ k2)
    (_hreg1 : w.router.routes_ k1 = some c1) (hreg2 : w.router.routes_ k2 = some c2) :
    (Router.navigate call k2 w).invoked = [(k2, c2)] ∧
    (k1, c1) ∉ (Router.navigate call k2 w).invoked ∧
    (∀ slot ∈ (Router.navigate call k2 w).invoked, slot.1 = k2 ∧ slot.1 ≠ k1) ∧
    (Router.navigate call k2 w).outcome
      = c2.invoke call { w with router := w.router.setCurrentRoute k2 } := by
  obtain ⟨hinv, hout⟩ := Router.navigate_of_some call w k2 c2 hreg2
  have hslots : ∀ slot ∈ (Router.navigate call k2 w).invoked,
      slot.1 = k2 ∧ slot.1 ≠ k1 := by
    intro slot hslot
    rw [hinv, List.mem_singleton] at hslot
    subst hslot
    exact ⟨rfl, fun heq => hne heq.symm⟩
  exact ⟨hinv, fun hmem => (hslots _ hmem).2 rfl, hslots, hout⟩

/-- C8, at Scenario A: `register("home", f1); register("credits", f2);
navigate("credits")` runs `f2` once, never `f1`, and `getCurrentRoute()` is
`"credits"`. -/
theorem C8_only_target_invoked_witness :
    "home" ≠ "credits" ∧
    Probe.scenarioA.router.routes_ "home" = some (.target (.mark 1)) ∧
    Probe.scenarioA.router.routes_ "credits" = some (.target (.mark 2)) ∧
    ((Router.navigate Probe.call "credits" Probe.scenarioA).invoked
        = [("credits", .target (.mark 2))] ∧
      ("home", .target (.mark 1))
        ∉ (Router.navigate Probe.call "credits" Probe.scenarioA).invoked ∧
      (∀ slot ∈ (Router.navigate Probe.call "credits" Probe.scenarioA).invoked,
        slot.1 = "credits" ∧ slot.1 ≠ "home") ∧
      (Router.navigate Probe.call "credits" Probe.scenarioA).outcome
        = (StdFunction.target (Probe.mark 2)).invoke Probe.call
            { Probe.scenarioA with
              router := Probe.scenarioA.router.setCurrentRoute "credits" }) ∧
    (Router.navigate Probe.call "credits" Probe.scenarioA).outcome.state.env.hits = [2] ∧
    (Router.navigate Probe.call "credits" Probe.scenarioA).outcome.state.router.getCurrentRoute
      = "credits" :=
  ⟨by decide, rfl, rfl,
    C8_only_target_invoked Probe.call Probe.scenarioA "home" "credits" (.target (.mark 1))
      (.target (.mark 2)) (by decide) rfl rfl,
    rfl, rfl⟩

/-- C9 (as stated, refuted): `navigate` does raise on states reached through
`addRoute` alone.  With `"a"` bound to an empty `std::function`,
`navigate("a")` is left by `std::bad_function_call`; with `"a"` bound to a
closure that throws, `navigate("a")` is left by that exception. -/
theorem C9_counterexample :
    Probe.emptyBound.router
      = (Router.new none : Router Probe).addRoute "a" .empty ∧
    (Router.navigate Probe.call "a" Probe.emptyBound).outcome.exn
      = some .bad_function_call ∧
    Probe.failing.router
      = (Router.new none : Router Probe).addRoute "a" (.target (.fail "boom")) ∧
    (Router.navigate Probe.call "a" Probe.failing).outcome.exn
      = some (.thrown "boom") :=
  ⟨rfl, rfl, rfl, rfl⟩

/-- C9 (amended): `navigate` raises nothing of its own and catches nothing.
For every Router state and key `k`: if `k` is unregistered, `navigate(k)`
returns; if `k` is bound to a non-empty callback, `navigate(k)` returns exactly
when that callback, run once from the state whose current route is `k`,
returns, and otherwise is left by the very exception the callback raised. -/
theorem C9_navigate_failure_modes {H E : Type} (call : Interp H E) (w : World H E)
    (k : String) :
    (w.router.routes_ k = none → (Router.navigate call k w).outcome.exn = none) ∧
    (∀ h : H, w.router.routes_ k = some (.target h) →
      (Router.navigate call k w).outcome.exn
        = (call h { w with router := w.router.setCurrentRoute k }).exn) := by
  constructor
  · intro hnone
    rw [Router.navigate_of_none call w k hnone]
    rfl
  · intro h hreg
    rw [(Router.navigate_of_some call w k (.target h) hreg).2]
    rfl

/-- C10: the current route need not be a registered key.  The freshly
constructed Router is reachable, its current route is `"home"` and its mapping
has no key; and from every reachable state, `setCurrentRoute(k)` with `k`
unregistered leads to a reachable state whose current route `k` is not a key
of the mapping. -/
theorem C10_current_route_may_be_unregistered {H E : Type} (call : Interp H E)
    (contentStack : WStackedWidgetPtr) (env : E) :
    (Router.Reachable call { router := Router.new contentStack, env := env } ∧
      (Router.new contentStack : Router H).getCurrentRoute = "home" ∧
      (Router.new contentStack : Router H).routes_
        (Router.new contentStack : Router H).getCurrentRoute = none) ∧
    (∀ (w : World H E) (k : String), Router.Reachable call w → w.router.routes_ k = none →
      Router.Reachable call (Router.perform call (.setCurrentRoute k) w).outcome.state ∧
      (Router.perform call (.setCurrentRoute k) w).outcome.state.router.getCurrentRoute = k ∧
      (Router.perform call (.setCurrentRoute k) w).outcome.state.router.routes_
        (Router.perform call (.setCurrentRoute k) w).outcome.state.router.getCurrentRoute
        = none) :=
  ⟨⟨Router.Reachable.fresh contentStack env, rfl, rfl⟩,
    fun w k hw hnone => ⟨Router.Reachable.step (.setCurrentRoute k) w hw, rfl, hnone⟩⟩

/-- C10, at a concrete input: on a fresh Router, `setCurrentRoute("nowhere")`
gives a reachable state whose current route `"nowhere"` is not registered. -/
theorem C10_current_route_may_be_unregistered_witness :
    Router.Reachable Probe.call
      (Router.perform Probe.call (.setCurrentRoute "nowhere") Probe.fresh).outcome.state ∧
    (Router.perform Probe.call (.setCurrentRoute "nowhere")
      Probe.fresh).outcome.state.router.getCurrentRoute = "nowhere" ∧
    (Router.perform Probe.call (.setCurrentRoute "nowhere")
      Probe.fresh).outcome.state.router.routes_
        (Router.perform Probe.call (.setCurrentRoute "nowhere")
          Probe.fresh).outcome.state.router.getCurrentRoute = none :=
  (C10_current_route_may_be_unregistered Probe.call none
    { hits := [], seen := [] }).2 Probe.fresh "nowhere"
    (C10_current_route_may_be_unregistered Probe.call none { hits := [], seen := [] }).1.1 rfl

/-! ## Basic facts about the application -/

section ApplicationLemmas

open Views.Components Views.Layouts

/-- The routes `setupRouting` registers, key by key. -/
theorem Application.setupRouting_routes (members : ApplicationMembers) (k : String) :
    (Application.setupRouting members).router.routes_ k =
      if k = "credits" then some (.target .navigateToCredits)
      else if k = "home" then some (.target .navigateToHome)
      else none := by
  simp [Application.setupRouting, Router.addRoute, Router.new]

/-- Calling any stored function object from an application state leaves the
mapping of the Router as it is: the two closures only store the current
route. -/
theorem Application.invoke_routes (f : StdFunction RouteLambda) (app : Application) :
    (f.invoke Application.call app).state.router.routes_ = app.router.routes_ := by
  cases f with
  | empty => rfl
  | target h => cases h <;> rfl

/-- `handleNavigation` leaves the mapping of the Router as it is. -/
theorem Application.handleNavigation_routes (page : String) (app : Application) :
    (Application.handleNavigation page app).router.routes_ = app.router.routes_ := by
  unfold Application.handleNavigation
  split_ifs <;> rfl

/-- `navigate` leaves the mapping of the Router as it is, whatever the key. -/
theorem Application.navigate_routes (page : String) (app : Application) :
    (Router.navigate Application.call page app).outcome.state.router.routes_
      = app.router.routes_ := by
  cases hfind : app.router.routes_ page with
  | none => rw [Router.navigate_of_none Application.call app page hfind]; rfl
  | some f =>
    rw [(Router.navigate_of_some Application.call app page f hfind).2]
    exact Application.invoke_routes f _

/-- In every state after setup the mapping of the Router is the one
`setupRouting` built. -/
theorem Application.routes_of_reachable (app : Application)
    (hreach : Application.Reachable app) (k : String) :
    app.router.routes_ k =
      if k = "credits" then some (.target .navigateToCredits)
      else if k = "home" then some (.target .navigateToHome)
      else none := by
  induction hreach with
  | setup => exact Application.setupRouting_routes _ k
  | handleNavigation page app _ ih => rw [Application.handleNavigation_routes]; exact ih
  | navigate page app _ ih => rw [Application.navigate_routes]; exact ih

/-- With the mapping `setupRouting` built, `navigate(page)` returns in the
state `handleNavigation(page)` leads to. -/
theorem Application.navigate_outcome (app : Application) (page : String)
    (hroutes : ∀ k, app.router.routes_ k =
      if k = "credits" then some (.target .navigateToCredits)
      else if k = "home" then some (.target .navigateToHome)
      else none) :
    (Router.navigate Application.call page app).outcome
      = .returned (Application.handleNavigation page app) := by
  by_cases hh : page = "home"
  · subst hh
    have hfind : app.router.routes_ "home" = some (.target .navigateToHome) := by
      rw [hroutes]; decide
    rw [(Router.navigate_of_some Application.call app "home" _ hfind).2]
    rfl
  · by_cases hc : page = "credits"
    · subst hc
      have hfind : app.router.routes_ "credits" = some (.target .navigateToCredits) := by
        rw [hroutes]; decide
      rw [(Router.navigate_of_some Application.call app "credits" _ hfind).2]
      rfl
    · have hfind : app.router.routes_ page = none := by
        rw [hroutes]; simp [hh, hc]
      rw [Router.navigate_of_none Application.call app page hfind]
      simp [Application.handleNavigation, hh, hc]

/-- `setActivePage` stores the page, whether or not the items exist. -/
theorem Application.setActivePage_activePage {N : Type} (n : Navigation N) (page : String) :
    (n.setActivePage page).activePage_ = page := by
  unfold Navigation.setActivePage Navigation.updateNavigationStyles
  cases n.homeNavItem_ <;> cases n.creditsNavItem_ <;> dsimp only <;> split_ifs <;> rfl

/-- After `navigateToHome` the three pieces of navigation state are `"home"`,
`"home"` and `0`. -/
theorem Application.navigateToHome_state (app : Application) :
    app.navigateToHome.router.getCurrentRoute = "home" ∧
    app.navigateToHome.activePage = "home" ∧
    app.navigateToHome.visibleIndex = 0 :=
  ⟨rfl, Application.setActivePage_activePage _ "home", rfl⟩

/-- After `navigateToCredits` the three pieces of navigation state are
`"credits"`, `"credits"` and `1`. -/
theorem Application.navigateToCredits_state (app : Application) :
    app.navigateToCredits.router.getCurrentRoute = "credits" ∧
    app.navigateToCredits.activePage = "credits" ∧
    app.navigateToCredits.visibleIndex = 1 :=
  ⟨rfl, Application.setActivePage_activePage _ "credits", rfl⟩

/-- `handleNavigation` keeps the navigation state consistent. -/
theorem Application.consistent_handleNavigation (page : String) (app : Application)
    (h : app.Consistent) : (Application.handleNavigation page app).Consistent := by
  unfold Application.handleNavigation
  split_ifs
  · obtain ⟨hr, ha, hi⟩ := Application.navigateToHome_state app
    unfold Application.Consistent
    rw [hr, ha, hi]
    decide
  · obtain ⟨hr, ha, hi⟩ := Application.navigateToCredits_state app
    unfold Application.Consistent
    rw [hr, ha, hi]
    decide
  · exact h

/-- The constructed application is consistent. -/
theorem Application.consistent_setupApplication :
    Application.setupApplication.Consistent :=
  ⟨rfl, Or.inl rfl, by decide, by decide⟩

/-- Every state after setup is consistent. -/
theorem Application.consistent_of_reachable (app : Application)
    (hreach : Application.Reachable app) : app.Consistent := by
  induction hreach with
  | setup => exact Application.consistent_setupApplication
  | handleNavigation page app _ ih => exact Application.consistent_handleNavigation page app ih
  | navigate page app hr ih =>
    rw [Application.navigate_outcome app page (Application.routes_of_reachable app hr)]
    exact Application.consistent_handleNavigation page app ih

/-- The states after a sequence of navigation-link events are states after
setup. -/
theorem Application.reachable_handleAll (pages : List String) (app : Application)
    (hreach : Application.Reachable app) :
    Application.Reachable (Application.handleAll pages app) := by
  induction pages generalizing app with
  | nil => exact hreach
  | cons page rest ih =>
    exact ih _ (Application.Reachable.handleNavigation page app hreach)

end ApplicationLemmas

/-! ## The application and its pages: claims C11 to C20 -/

/-- C11: after `Application::setupRouting` the mapping of the Router has
exactly the two keys `"home"` and `"credits"`: a string is a key if and only
if it is one of the two.  The same holds for the constructed application. -/
theorem C11_setupRouting_keys (members : ApplicationMembers) (k : String) :
    (((Application.setupRouting members).router.routes_ k).isSome = true
      ↔ (k = "home" ∨ k = "credits")) ∧
    ((Application.setupApplication.router.routes_ k).isSome = true
      ↔ (k = "home" ∨ k = "credits")) := by
  have key : ∀ m : ApplicationMembers,
      ((Application.setupRouting m).router.routes_ k).isSome = true
        ↔ (k = "home" ∨ k = "credits") := by
    intro m
    rw [Application.setupRouting_routes]
    by_cases hc : k = "credits"
    · simp [hc]
    · by_cases hh : k = "home"
      · simp [hh]
      · simp [hc, hh]
  exact ⟨key members, by
    rw [Application.routes_of_reachable _ Application.Reachable.setup k,
      ← Application.setupRouting_routes members k]
    exact key members⟩

/-- C12: `setupRouting` binds `"home"` to the closure that runs
`navigateToHome` and `"credits"` to the closure that runs `navigateToCredits`.
Called from any application state, the first returns with content-stack index
`0` visible, active page `"home"` and current route `"home"`; the second
returns with index `1` visible, active page `"credits"` and current route
`"credits"`. -/
theorem C12_route_callbacks (members : ApplicationMembers) (app : Application) :
    (Application.setupRouting members).router.routes_ "home"
      = some (.target .navigateToHome) ∧
    (Application.setupRouting members).router.routes_ "credits"
      = some (.target .navigateToCredits) ∧
    (StdFunction.target RouteLambda.navigateToHome).invoke Application.call app
      = .returned app.navigateToHome ∧
    app.navigateToHome.visibleIndex = 0 ∧
    app.navigateToHome.activePage = "home" ∧
    app.navigateToHome.router.getCurrentRoute = "home" ∧
    (StdFunction.target RouteLambda.navigateToCredits).invoke Application.call app
      = .returned app.navigateToCredits ∧
    app.navigateToCredits.visibleIndex = 1 ∧
    app.navigateToCredits.activePage = "credits" ∧
    app.navigateToCredits.router.getCurrentRoute = "credits" := by
  obtain ⟨hr, ha, hi⟩ := Application.navigateToHome_state app
  obtain ⟨hr2, ha2, hi2⟩ := Application.navigateToCredits_state app
  refine ⟨?_, ?_, rfl, hi, ha, hr, rfl, hi2, ha2, hr2⟩
  · rw [Application.setupRouting_routes]; decide
  · rw [Application.setupRouting_routes]; decide

/-- C13: in every state of the application after setup, a navigation request
for a string other than `"home"` and `"credits"` changes nothing and raises
nothing: `handleNavigation(page)` returns the state it was given, and
`router_->navigate(page)` calls no closure and returns with the state
unchanged, so the visible index, the active page and the current route are
what they were. -/
theorem C13_unknown_page_changes_nothing (app : Application) (page : String)
    (hreach : Application.Reachable app) (hhome : page ≠ "home")
    (hcredits : page ≠ "credits") :
    Application.handleNavigation page app = app ∧
    (Router.navigate Application.call page app).outcome = .returned app ∧
    (Router.navigate Application.call page app).outcome.exn = none ∧
    (Router.navigate Application.call page app).invoked = [] ∧
    (Application.handleNavigation page app).visibleIndex = app.visibleIndex ∧
    (Application.handleNavigation page app).activePage = app.activePage ∧
    (Application.handleNavigation page app).router.getCurrentRoute
      = app.router.getCurrentRoute ∧
    Application.visibleIndex (Router.navigate Application.call page app).outcome.state
      = app.visibleIndex ∧
    Application.activePage (Router.navigate Application.call page app).outcome.state
      = app.activePage ∧
    (Router.navigate Application.call page app).outcome.state.router.getCurrentRoute
      = app.router.getCurrentRoute := by
  have hsame : Application.handleNavigation page app = app := by
    simp [Application.handleNavigation, hhome, hcredits]
  have hfind : app.router.routes_ page = none := by
    rw [Application.routes_of_reachable app hreach]
    simp [hhome, hcredits]
  have hnav := Router.navigate_of_none Application.call app page hfind
  rw [hsame, hnav]
  exact ⟨rfl, rfl, rfl, rfl, rfl, rfl, rfl, rfl, rfl, rfl⟩

/-- C13, at a concrete input: on the constructed application a request for
`"about"` leaves index `0`, active page `"home"` and route `"home"`. -/
theorem C13_unknown_page_changes_nothing_witness :
    Application.Reachable Application.setupApplication ∧
    "about" ≠ "home" ∧ "about" ≠ "credits" ∧
    Application.handleNavigation "about" Application.setupApplication
      = Application.setupApplication ∧
    (Router.navigate Application.call "about" Application.setupApplication).outcome
      = .returned Application.setupApplication ∧
    Application.visibleIndex (Router.navigate Application.call "about"
      Application.setupApplication).outcome.state = 0 ∧
    Application.activePage (Router.navigate Application.call "about"
      Application.setupApplication).outcome.state = "home" ∧
    (Router.navigate Application.call "about"
      Application.setupApplication).outcome.state.router.getCurrentRoute = "home" :=
  have h := C13_unknown_page_changes_nothing Application.setupApplication "about"
    Application.Reachable.setup (by decide) (by decide)
  ⟨Application.Reachable.setup, by decide, by decide, h.1, h.2.1, rfl, rfl, rfl⟩

/-- C14: right after construction (`pages = []`) and after every sequence
`pages` of navigation-link events, each a call `handleNavigation(page)` with
any string, the Router's current route equals the navigation bar's active
page, that value is `"home"` or `"credits"`, and the visible content-stack
index is `0` exactly when it is `"home"` and `1` exactly when it is
`"credits"`. -/
theorem C14_navigation_state_consistent (pages : List String) :
    (Application.handleAll pages Application.setupApplication).router.getCurrentRoute
      = (Application.handleAll pages Application.setupApplication).activePage ∧
    ((Application.handleAll pages Application.setupApplication).activePage = "home" ∨
      (Application.handleAll pages Application.setupApplication).activePage = "credits") ∧
    ((Application.handleAll pages Application.setupApplication).visibleIndex = 0
      ↔ (Application.handleAll pages Application.setupApplication).activePage = "home") ∧
    ((Application.handleAll pages Application.setupApplication).visibleIndex = 1
      ↔ (Application.handleAll pages Application.setupApplication).activePage = "credits") :=
  Application.consistent_of_reachable _
    (Application.reachable_handleAll pages _ Application.Reachable.setup)

/-- C14, at a concrete input: after the events `"credits"`, `"about"` the
current route and the active page are `"credits"` and index `1` is visible. -/
theorem C14_navigation_state_consistent_witness :
    (Application.handleAll ["credits", "about"]
      Application.setupApplication).router.getCurrentRoute = "credits" ∧
    (Application.handleAll ["credits", "about"] Application.setupApplication).activePage
      = "credits" ∧
    (Application.handleAll ["credits", "about"] Application.setupApplication).visibleIndex
      = 1 ∧
    (Application.handleAll ["credits", "about"]
        Application.setupApplication).router.getCurrentRoute
      = (Application.handleAll ["credits", "about"] Application.setupApplication).activePage :=
  ⟨rfl, rfl, rfl, (C14_navigation_state_consistent ["credits", "about"]).1⟩

/-- C15: on a navigation bar whose two items exist, after `setActivePage(p)`,
for every string `p`: the active page is `p`; the Home item has class
`"nav-item active"` if `p` is `"home"` and `"nav-item"` otherwise, so it is
active if and only if `p` is `"home"`; the Credits item has class
`"nav-item active"` if `p` is `"credits"` and `"nav-item"` otherwise; the two
items are never both active, and neither is when `p` is another string.  The
constructor leaves both items existing, active page `"home"`, Home active and
Credits not. -/
theorem C15_setActivePage_classes {N : Type}
    (n : Views.Components.Navigation N) (p : String) (home credits : Wt.WText)
    (onNavigate : StdFunction N)
    (hhome : n.homeNavItem_ = some home) (hcredits : n.creditsNavItem_ = some credits) :
    (n.setActivePage p).activePage_ = p ∧
    (n.setActivePage p).homeClass
      = some (if p = "home" then "nav-item active" else "nav-item") ∧
    (n.setActivePage p).creditsClass
      = some (if p = "credits" then "nav-item active" else "nav-item") ∧
    ((n.setActivePage p).homeClass = some "nav-item active" ↔ p = "home") ∧
    ((n.setActivePage p).creditsClass = some "nav-item active" ↔ p = "credits") ∧
    ¬ ((n.setActivePage p).homeClass = some "nav-item active" ∧
        (n.setActivePage p).creditsClass = some "nav-item active") ∧
    (p ≠ "home" → p ≠ "credits" →
      (n.setActivePage p).homeClass = some "nav-item" ∧
      (n.setActivePage p).creditsClass = some "nav-item") ∧
    (Views.Components.Navigation.new onNavigate).activePage_ = "home" ∧
    (Views.Components.Navigation.new onNavigate).homeClass = some "nav-item active" ∧
    (Views.Components.Navigation.new onNavigate).creditsClass = some "nav-item" ∧
    (Views.Components.Navigation.new onNavigate).homeNavItem_
      = some { text := "Home", styleClass := "nav-item active" } ∧
    (Views.Components.Navigation.new onNavigate).creditsNavItem_
      = some { text := "Credits", styleClass := "nav-item" } := by
  have hH : (n.setActivePage p).homeClass
      = some (if p = "home" then "nav-item active" else "nav-item") := by
    unfold Views.Components.Navigation.setActivePage
      Views.Components.Navigation.updateNavigationStyles
      Views.Components.Navigation.homeClass
    simp only [hhome, hcredits]
    split_ifs <;> rfl
  have hC : (n.setActivePage p).creditsClass
      = some (if p = "credits" then "nav-item active" else "nav-item") := by
    unfold Views.Components.Navigation.setActivePage
      Views.Components.Navigation.updateNavigationStyles
      Views.Components.Navigation.creditsClass
    simp only [hhome, hcredits]
    split_ifs <;> rfl
  have hHiff : (n.setActivePage p).homeClass = some "nav-item active" ↔ p = "home" := by
    rw [hH]
    by_cases hp : p = "home"
    · simp [hp]
    · rw [if_neg hp]
      exact ⟨fun h => absurd h (by decide), fun h => absurd h hp⟩
  have hCiff : (n.setActivePage p).creditsClass = some "nav-item active"
      ↔ p = "credits" := by
    rw [hC]
    by_cases hp : p = "credits"
    · simp [hp]
    · rw [if_neg hp]
      exact ⟨fun h => absurd h (by decide), fun h => absurd h hp⟩
  refine ⟨Application.setActivePage_activePage n p, hH, hC, hHiff, hCiff, ?_, ?_,
    rfl, rfl, rfl, rfl, rfl⟩
  · rintro ⟨h1, h2⟩
    have e1 := hHiff.mp h1
    have e2 := hCiff.mp h2
    rw [e1] at e2
    exact absurd e2 (by decide)
  · intro h1 h2
    rw [hH, hC, if_neg h1, if_neg h2]
    exact ⟨rfl, rfl⟩

/-- C15, at a concrete input: on the constructed navigation bar,
`setActivePage("credits")` makes Credits active and Home not. -/
theorem C15_setActivePage_classes_witness :
    (Views.Components.Navigation.new (.target Views.Layouts.MainLayoutLambda.forward)
      ).homeNavItem_ = some { text := "Home", styleClass := "nav-item active" } ∧
    (Views.Components.Navigation.new (.target Views.Layouts.MainLayoutLambda.forward)
      ).creditsNavItem_ = some { text := "Credits", styleClass := "nav-item" } ∧
    ((Views.Components.Navigation.new
      (.target Views.Layouts.MainLayoutLambda.forward)).setActivePage "credits").homeClass
      = some "nav-item" ∧
    ((Views.Components.Navigation.new
      (.target Views.Layouts.MainLayoutLambda.forward)).setActivePage "credits").creditsClass
      = some "nav-item active" ∧
    ((Views.Components.Navigation.new
      (.target Views.Layouts.MainLayoutLambda.forward)).setActivePage "credits").activePage_
      = "credits" :=
  have h := C15_setActivePage_classes
    (Views.Components.Navigation.new (.target Views.Layouts.MainLayoutLambda.forward))
    "credits" { text := "Home", styleClass := "nav-item active" }
    { text := "Credits", styleClass := "nav-item" }
    (.target Views.Layouts.MainLayoutLambda.forward) rfl rfl
  ⟨rfl, rfl, h.2.1, h.2.2.1, h.1⟩

/-- C16 (as stated, refuted): the page `HomePageBuilder::build` constructs has
nine labels, the monolithic `createHomePage` and the MVC `HomePage` have
eleven; the label sequence of the builder differs from both. -/
theorem C16_counterexample :
    Builders.HomePageBuilder.build.labels.length = 9 ∧
    CSPNetApp.createHomePage.labels.length = 11 ∧
    Views.Pages.HomePage.new.labels.length = 11 ∧
    Builders.HomePageBuilder.build.labels ≠ CSPNetApp.createHomePage.labels ∧
    Builders.HomePageBuilder.build.labels ≠ Views.Pages.HomePage.new.labels := by
  refine ⟨by decide, by decide, by decide, by decide, by decide⟩

/-- C16 (amended): the monolithic `CSPNetApp::createHomePage` and the MVC
`Views::Pages::HomePage` produce the same sequence of text and button labels
in document order.  `Builders::HomePageBuilder::build` produces the first nine
of them in the same order (title, subtitle, the three feature cards and the
`Get Started` button) and has no tech-stack section: the two other pages end
with the two further labels `Powered By` and the list of technologies. -/
theorem C16_home_pages_labels :
    Views.Pages.HomePage.new.labels = CSPNetApp.createHomePage.labels ∧
    Builders.HomePageBuilder.build.labels =
      [ .text "CSP-NET",
        .text "Premium Web Platform",
        .text "Modern Architecture",
        .text "Built with Drogon C++ framework for high-performance backend operations",
        .text "Premium UI",
        .text "Wt Framework components with Apple-inspired design system and interactions",
        .text "Enterprise Ready",
        .text "Scalable, secure, and production-ready platform from day one",
        .button "Get Started" ] ∧
    CSPNetApp.createHomePage.labels =
      Builders.HomePageBuilder.build.labels ++
        [ .text "Powered By",
          .text "Drogon • Wt Framework • C++17 • Modern Web Standards" ] ∧
    Views.Pages.HomePage.new.labels =
      Builders.HomePageBuilder.build.labels ++
        [ .text "Powered By",
          .text "Drogon • Wt Framework • C++17 • Modern Web Standards" ] := by
  refine ⟨by decide, by decide, by decide, by decide⟩

/-- C17: the three credits-page constructions (monolithic
`CSPNetApp::createCreditsPage`, MVC `Views::Pages::CreditsPage` and
`Builders::CreditsPageBuilder::build`) produce the same labels in document
order: the title `Credits`, the subtitle `Built with passion by`, then the
credit cards (`Zerohexer`, `Project Creator & Developer`) and (`Claude Code`,
`AI Development Assistant`). -/
theorem C17_credits_pages_labels :
    CSPNetApp.createCreditsPage.labels =
      [ .text "Credits", .text "Built with passion by",
        .text "Zerohexer", .text "Project Creator & Developer",
        .text "Claude Code", .text "AI Development Assistant" ] ∧
    Views.Pages.CreditsPage.new.labels = CSPNetApp.createCreditsPage.labels ∧
    Builders.CreditsPageBuilder.build.labels = CSPNetApp.createCreditsPage.labels := by
  refine ⟨by decide, by decide, by decide⟩

/-- C18: in every state of the application after setup and for every string
`page`, `router_->navigate(page)` returns in exactly the state
`handleNavigation(page)` leads to; in particular the visible content-stack
index, the active page and the two item classes of the navigation bar, and
the Router's current route are the same on both paths. -/
theorem C18_navigation_paths_agree (app : Application) (page : String)
    (hreach : Application.Reachable app) :
    (Router.navigate Application.call page app).outcome
      = .returned (Application.handleNavigation page app) ∧
    Application.visibleIndex (Router.navigate Application.call page app).outcome.state
      = (Application.handleNavigation page app).visibleIndex ∧
    Application.activePage (Router.navigate Application.call page app).outcome.state
      = (Application.handleNavigation page app).activePage ∧
    (Router.navigate Application.call page
        app).outcome.state.env.mainLayout_.getNavigation.homeClass
      = (Application.handleNavigation page app).env.mainLayout_.getNavigation.homeClass ∧
    (Router.navigate Application.call page
        app).outcome.state.env.mainLayout_.getNavigation.creditsClass
      = (Application.handleNavigation page app).env.mainLayout_.getNavigation.creditsClass ∧
    (Router.navigate Application.call page app).outcome.state.router.getCurrentRoute
      = (Application.handleNavigation page app).router.getCurrentRoute := by
  have hout := Application.navigate_outcome app page
    (Application.routes_of_reachable app hreach)
  rw [hout]
  exact ⟨rfl, rfl, rfl, rfl, rfl, rfl⟩

/-- C18, at a concrete input: on the constructed application both paths for
`"credits"` end with index `1` visible, active page and current route
`"credits"`, Credits active and Home not. -/
theorem C18_navigation_paths_agree_witness :
    Application.Reachable Application.setupApplication ∧
    (Router.navigate Application.call "credits" Application.setupApplication).outcome
      = .returned (Application.handleNavigation "credits" Application.setupApplication) ∧
    (Application.handleNavigation "credits" Application.setupApplication).visibleIndex = 1 ∧
    (Application.handleNavigation "credits" Application.setupApplication).activePage
      = "credits" ∧
    (Application.handleNavigation "credits"
      Application.setupApplication).router.getCurrentRoute = "credits" ∧
    (Application.handleNavigation "credits"
      Application.setupApplication).env.mainLayout_.getNavigation.homeClass
      = some "nav-item" ∧
    (Application.handleNavigation "credits"
      Application.setupApplication).env.mainLayout_.getNavigation.creditsClass
      = some "nav-item active" :=
  ⟨Application.Reachable.setup,
    (C18_navigation_paths_agree Application.setupApplication "credits"
      Application.Reachable.setup).1,
    rfl, rfl, rfl, rfl, rfl⟩

/-- C19: the current route after `navigate(k)` is what the callback leaves.
If `k` is bound to a closure that calls `setCurrentRoute(k2)` on the same
Router, with `k2` different from `k`, then `navigate(k)` first stores `k`,
then the closure stores `k2`, and `getCurrentRoute()` returns `k2`, not `k`,
afterwards. -/
theorem C19_callback_overrides_route {H E : Type} (call : Interp H E) (w : World H E)
    (k k2 : String) (h : H) (hne : k2 ≠ k)
    (hreg : w.router.routes_ k = some (.target h))
    (hset : ∀ s : World H E, call h s
      = .returned { s with router := s.router.setCurrentRoute k2 }) :
    (Router.navigate call k w).invoked = [(k, .target h)] ∧
    (Router.navigate call k w).outcome
      = .returned { w with router := (w.router.setCurrentRoute k).setCurrentRoute k2 } ∧
    (Router.navigate call k w).outcome.state.router.getCurrentRoute = k2 ∧
    (Router.navigate call k w).outcome.state.router.getCurrentRoute ≠ k := by
  obtain ⟨hinv, hout⟩ := Router.navigate_of_some call w k (.target h) hreg
  have hout2 : (Router.navigate call k w).outcome
      = .returned { w with router := (w.router.setCurrentRoute k).setCurrentRoute k2 } := by
    rw [hout]
    simp only [StdFunction.invoke, hset]
  refine ⟨hinv, hout2, ?_, ?_⟩
  · rw [hout2]; rfl
  · rw [hout2]; exact hne

/-- C19, at a concrete input: `"credits"` is bound to a closure that calls
`setCurrentRoute("home")`; after `navigate("credits")` the current route is
`"home"`. -/
theorem C19_callback_overrides_route_witness :
    "home" ≠ "credits" ∧
    Probe.bouncing.router.routes_ "credits" = some (.target (.redirect "home")) ∧
    (Router.navigate Probe.call "credits" Probe.bouncing).invoked
      = [("credits", .target (.redirect "home"))] ∧
    (Router.navigate Probe.call "credits" Probe.bouncing).outcome.state.router.getCurrentRoute
      = "home" ∧
    (Router.navigate Probe.call "credits" Probe.bouncing).outcome.state.router.getCurrentRoute
      ≠ "credits" :=
  have h := C19_callback_overrides_route Probe.call Probe.bouncing "credits" "home"
    (.redirect "home") (by decide) rfl (fun _ => rfl)
  ⟨by decide, rfl, h.1, h.2.2.1, h.2.2.2⟩

/-- C20: `navigate` is not atomic with respect to a failing callback.  For
every key `k` bound to a function object `c` whose call, started in the state
in which `navigate` has already stored `k` as current route, is left by an
exception `e` in state `s`: the same exception leaves `navigate(k)`, the line
`Navigated to` is not written, and `navigate` ends in that very state `s`, so
nothing is rolled back; if the callback did not itself write the current
route, `getCurrentRoute()` returns `k`.  An empty `std::function` is such a
callback: `navigate(k)` is left by `std::bad_function_call` with current route
`k`. -/
theorem C20_failure_not_rolled_back {H E : Type} (call : Interp H E) (w : World H E)
    (k : String) (c : StdFunction H) (e : Exn) (s : World H E)
    (hreg : w.router.routes_ k = some c)
    (hraise : c.invoke call { w with router := w.router.setCurrentRoute k } = .raised e s) :
    (Router.navigate call k w).outcome = .raised e s ∧
    (Router.navigate call k w).outcome.exn = some e ∧
    (Router.navigate call k w).out = [] ∧
    (Router.navigate call k w).outcome.state = s ∧
    ({ w with router := w.router.setCurrentRoute k } : World H E).router.getCurrentRoute
      = k ∧
    (s.router.getCurrentRoute = k →
      (Router.navigate call k w).outcome.state.router.getCurrentRoute = k) ∧
    (c = .empty →
      e = .bad_function_call ∧
      s = { w with router := w.router.setCurrentRoute k } ∧
      (Router.navigate call k w).outcome.state.router.getCurrentRoute = k) := by
  obtain ⟨_, hout⟩ := Router.navigate_of_some call w k c hreg
  have hout2 : (Router.navigate call k w).outcome = .raised e s := by rw [hout, hraise]
  have hprint : (Router.navigate call k w).out = [] := by
    simp only [Router.setCurrentRoute] at hraise
    simp [Router.navigate, hreg, hraise]
  refine ⟨hout2, by rw [hout2]; rfl, hprint, by rw [hout2]; rfl, rfl, ?_, ?_⟩
  · intro hs
    rw [hout2]
    exact hs
  · intro hc
    subst hc
    simp only [StdFunction.invoke, Outcome.raised.injEq] at hraise
    obtain ⟨he, hs⟩ := hraise
    refine ⟨he.symm, hs.symm, ?_⟩
    rw [hout2, ← hs]
    rfl

/-- C20, at concrete inputs: on a Router with current route `"home"`,
`navigate("a")` with `"a"` bound to an empty `std::function` is left by
`std::bad_function_call`, and with `"a"` bound to a throwing closure by that
closure's exception; in both cases `getCurrentRoute()` is `"a"` afterwards. -/
theorem C20_failure_not_rolled_back_witness :
    Probe.emptyBound.router.getCurrentRoute = "home" ∧
    Probe.emptyBound.router.routes_ "a" = some .empty ∧
    (Router.navigate Probe.call "a" Probe.emptyBound).outcome.exn
      = some .bad_function_call ∧
    (Router.navigate Probe.call "a" Probe.emptyBound).outcome.state.router.getCurrentRoute
      = "a" ∧
    Probe.failing.router.getCurrentRoute = "home" ∧
    (Router.navigate Probe.call "a" Probe.failing).outcome.exn = some (.thrown "boom") ∧
    (Router.navigate Probe.call "a" Probe.failing).outcome.state.router.getCurrentRoute
      = "a" :=
  have h1 := C20_failure_not_rolled_back Probe.call Probe.emptyBound "a" .empty
    .bad_function_call
    { Probe.emptyBound with router := Probe.emptyBound.router.setCurrentRoute "a" } rfl rfl
  have h2 := C20_failure_not_rolled_back Probe.call Probe.failing "a"
    (.target (.fail "boom")) (.thrown "boom")
    { Probe.failing with router := Probe.failing.router.setCurrentRoute "a" } rfl rfl
  ⟨rfl, rfl, h1.2.1, (h1.2.2.2.2.2.2 rfl).2.2, rfl, h2.2.1, h2.2.2.2.2.2.1 rfl⟩

/-! ## Basic facts about sequences of method calls -/

section SequenceLemmas

variable {H E : Type}

/-- Calling a function object whose closures do not touch the Router leaves
the Router as it is. -/
theorem Router.invoke_router_of_pure (call : Interp H E)
    (hpure : ∀ (h : H) (s : World H E), (call h s).state.router = s.router)
    (f : StdFunction H) (s : World H E) :
    (f.invoke call s).state.router = s.router := by
  cases f with
  | empty => rfl
  | target h => exact hpure h s

/-- With closures that do not touch the Router, `navigate` on a registered key
changes the Router by storing the key as current route and nothing else. -/
theorem Router.navigate_router_of_pure_some (call : Interp H E)
    (hpure : ∀ (h : H) (s : World H E), (call h s).state.router = s.router)
    (w : World H E) (path : String) (f : StdFunction H)
    (hreg : w.router.routes_ path = some f) :
    (Router.navigate call path w).outcome.state.router
      = w.router.setCurrentRoute path := by
  rw [(Router.navigate_of_some call w path f hreg).2]
  exact Router.invoke_router_of_pure call hpure f _

/-- With closures that do not touch the Router, no method call removes or
rebinds a key other than the one `addRoute` is called with. -/
theorem Router.perform_routes_of_pure (call : Interp H E)
    (hpure : ∀ (h : H) (s : World H E), (call h s).state.router = s.router)
    (op : RouterCall H) (w : World H E) (k : String)
    (hother : ∀ handler, op ≠ .addRoute k handler) :
    (Router.perform call op w).outcome.state.router.routes_ k = w.router.routes_ k := by
  cases op with
  | addRoute path handler =>
    have hne : k ≠ path := by
      intro heq
      exact hother handler (by rw [heq])
    exact Router.addRoute_routes_other w.router path k handler hne
  | navigate path =>
    show (Router.navigate call path w).outcome.state.router.routes_ k = _
    cases hfind : w.router.routes_ path with
    | none => rw [Router.navigate_of_none call w path hfind]; rfl
    | some f => rw [Router.navigate_router_of_pure_some call hpure w path f hfind]; rfl
  | setCurrentRoute path => rfl
  | getCurrentRoute => rfl

/-- With closures that do not touch the Router, after any sequence of method
calls a key that was bound is bound to the function object most recently
registered for it. -/
theorem Router.performAll_lastRegistered (call : Interp H E)
    (hpure : ∀ (h : H) (s : World H E), (call h s).state.router = s.router)
    (k : String) (ops : List (RouterCall H)) :
    ∀ (w : World H E) (c : StdFunction H), w.router.routes_ k = some c →
      (Router.performAll call ops w).router.routes_ k
        = some (RouterCall.lastRegistered k ops c) := by
  induction ops with
  | nil => intro w c hreg; exact hreg
  | cons op rest ih =>
    intro w c hreg
    show (Router.performAll call rest (Router.perform call op w).outcome.state).router.routes_ k
      = _
    cases op with
    | addRoute path handler =>
      by_cases hp : path = k
      · subst hp
        simp only [RouterCall.lastRegistered, if_true]
        exact ih _ handler (Router.addRoute_routes_self w.router path handler)
      · simp only [RouterCall.lastRegistered, if_neg hp]
        refine ih _ c ?_
        rw [Router.perform_routes_of_pure call hpure _ w k
          (fun handler2 heq => hp (by injection heq))]
        exact hreg
    | navigate path =>
      refine ih _ c ?_
      rw [Router.perform_routes_of_pure call hpure _ w k (fun _ heq => by cases heq)]
      exact hreg
    | setCurrentRoute path => exact ih _ c hreg
    | getCurrentRoute => exact ih _ c hreg

/-- With closures that do not touch the Router, `addRoute` and `navigate` keep
the current route meaningful: it is `"home"` or a registered key. -/
theorem Router.perform_route_meaningful (call : Interp H E)
    (hpure : ∀ (h : H) (s : World H E), (call h s).state.router = s.router)
    (op : RouterCall H) (hop : op.isAddRouteOrNavigate = true) (w : World H E)
    (hinv : w.router.getCurrentRoute = "home" ∨
      (w.router.routes_ w.router.getCurrentRoute).isSome = true) :
    (Router.perform call op w).outcome.state.router.getCurrentRoute = "home" ∨
      ((Router.perform call op w).outcome.state.router.routes_
        (Router.perform call op w).outcome.state.router.getCurrentRoute).isSome = true := by
  cases op with
  | addRoute path handler =>
    rcases hinv with hhome | hreg
    · exact Or.inl hhome
    · right
      show ((w.router.addRoute path handler).routes_ w.router.getCurrentRoute).isSome = true
      by_cases hk : w.router.getCurrentRoute = path
      · rw [hk, Router.addRoute_routes_self]; rfl
      · rw [Router.addRoute_routes_other _ _ _ _ hk]; exact hreg
  | navigate path =>
    show (Router.navigate call path w).outcome.state.router.getCurrentRoute = "home" ∨
      ((Router.navigate call path w).outcome.state.router.routes_
        (Router.navigate call path w).outcome.state.router.getCurrentRoute).isSome = true
    cases hfind : w.router.routes_ path with
    | none => rw [Router.navigate_of_none call w path hfind]; exact hinv
    | some f =>
      rw [Router.navigate_router_of_pure_some call hpure w path f hfind]
      right
      show (w.router.routes_ path).isSome = true
      rw [hfind]; rfl
  | setCurrentRoute path => exact absurd hop (by simp [RouterCall.isAddRouteOrNavigate])
  | getCurrentRoute => exact absurd hop (by simp [RouterCall.isAddRouteOrNavigate])

end SequenceLemmas

/-! ## Sequences of calls, event forwarding, the data model: claims C21 to C25 -/

/-- C21: registration is permanent.  With callbacks that do not touch the
Router, after `addRoute(k, c)` and any later sequence `ops` of `addRoute`,
`navigate`, `setCurrentRoute` and `getCurrentRoute` calls, `k` is still a
registered key, bound to the function object most recently registered for it,
and `navigate(k)` calls exactly that one, once.  More generally no such
sequence removes any key `k2` that was registered. -/
theorem C21_registration_permanent {H E : Type} (call : Interp H E) (w : World H E)
    (k : String) (c : StdFunction H) (ops : List (RouterCall H))
    (hpure : ∀ (h : H) (s : World H E), (call h s).state.router = s.router) :
    ((Router.performAll call ops
        (Router.perform call (.addRoute k c) w).outcome.state).router.routes_ k).isSome
      = true ∧
    (Router.performAll call ops
        (Router.perform call (.addRoute k c) w).outcome.state).router.routes_ k
      = some (RouterCall.lastRegistered k ops c) ∧
    (Router.navigate call k (Router.performAll call ops
        (Router.perform call (.addRoute k c) w).outcome.state)).invoked
      = [(k, RouterCall.lastRegistered k ops c)] ∧
    (∀ (k2 : String) (c2 : StdFunction H), w.router.routes_ k2 = some c2 →
      ((Router.performAll call ops w).router.routes_ k2).isSome = true) := by
  have hstart : (Router.perform call (.addRoute k c) w).outcome.state.router.routes_ k
      = some c := Router.addRoute_routes_self w.router k c
  have hend := Router.performAll_lastRegistered call hpure k ops _ c hstart
  refine ⟨by rw [hend]; rfl, hend, (Router.navigate_of_some call _ k _ hend).1, ?_⟩
  intro k2 c2 hreg
  rw [Router.performAll_lastRegistered call hpure k2 ops w c2 hreg]
  rfl

/-- C21, at a concrete input: after `addRoute("a", f1)`, the calls
`navigate("a")`, `setCurrentRoute("zzz")`, `addRoute("b", f5)`,
`addRoute("a", f2)`, `getCurrentRoute()`, `navigate("nowhere")` leave `"a"`
bound to `f2`, and `navigate("a")` then runs `f2` (the log shows the earlier
run of `f1`, then `f2`). -/
theorem C21_registration_permanent_witness :
    (∀ (h : Nat) (s : World Nat (List Nat)), (Marker.call h s).state.router = s.router) ∧
    (Router.performAll Marker.call
        [.navigate "a", .setCurrentRoute "zzz", .addRoute "b" (.target 5),
          .addRoute "a" (.target 2), .getCurrentRoute, .navigate "nowhere"]
        (Router.perform Marker.call (.addRoute "a" (.target 1))
          Marker.fresh).outcome.state).router.routes_ "a"
      = some (.target 2) ∧
    (Router.navigate Marker.call "a" (Router.performAll Marker.call
        [.navigate "a", .setCurrentRoute "zzz", .addRoute "b" (.target 5),
          .addRoute "a" (.target 2), .getCurrentRoute, .navigate "nowhere"]
        (Router.perform Marker.call (.addRoute "a" (.target 1))
          Marker.fresh).outcome.state)).invoked
      = [("a", .target 2)] ∧
    (Router.navigate Marker.call "a" (Router.performAll Marker.call
        [.navigate "a", .setCurrentRoute "zzz", .addRoute "b" (.target 5),
          .addRoute "a" (.target 2), .getCurrentRoute, .navigate "nowhere"]
        (Router.perform Marker.call (.addRoute "a" (.target 1))
          Marker.fresh).outcome.state)).outcome.state.env
      = [1, 2] :=
  have h := C21_registration_permanent Marker.call Marker.fresh "a" (.target 1)
    [.navigate "a", .setCurrentRoute "zzz", .addRoute "b" (.target 5),
      .addRoute "a" (.target 2), .getCurrentRoute, .navigate "nowhere"]
    (fun _ _ => rfl)
  ⟨fun _ _ => rfl, h.2.1, h.2.2.1, rfl⟩

/-- C22: without the setter the current route is always meaningful.  With
callbacks that do not touch the Router, in every state reached from a fresh
Router by `addRoute` and `navigate` calls only, `getCurrentRoute()` returns
the initial value `"home"` or a key that is registered in the mapping. -/
theorem C22_route_meaningful_without_setter {H E : Type} (call : Interp H E)
    (contentStack : WStackedWidgetPtr) (env : E) (ops : List (RouterCall H))
    (hpure : ∀ (h : H) (s : World H E), (call h s).state.router = s.router)
    (hops : ∀ op ∈ ops, op.isAddRouteOrNavigate = true) :
    (Router.performAll call ops
        { router := Router.new contentStack, env := env }).router.getCurrentRoute = "home" ∨
    ((Router.performAll call ops
        { router := Router.new contentStack, env := env }).router.routes_
      (Router.performAll call ops
        { router := Router.new contentStack, env := env }).router.getCurrentRoute).isSome
      = true := by
  have key : ∀ (l : List (RouterCall H)) (w : World H E),
      (∀ op ∈ l, op.isAddRouteOrNavigate = true) →
      (w.router.getCurrentRoute = "home" ∨
        (w.router.routes_ w.router.getCurrentRoute).isSome = true) →
      ((Router.performAll call l w).router.getCurrentRoute = "home" ∨
        ((Router.performAll call l w).router.routes_
          (Router.performAll call l w).router.getCurrentRoute).isSome = true) := by
    intro l
    induction l with
    | nil => intro w _ hinv; exact hinv
    | cons op rest ih =>
      intro w hl hinv
      exact ih _ (fun o ho => hl o (List.mem_cons_of_mem op ho))
        (Router.perform_route_meaningful call hpure op (hl op (List.mem_cons_self op rest))
          w hinv)
  exact key ops _ hops (Or.inl rfl)

/-- C22, at a concrete input: from a fresh Router, `addRoute("credits", f1)`,
`navigate("credits")`, `navigate("missing")` leave the current route
`"credits"`, which is registered. -/
theorem C22_route_meaningful_without_setter_witness :
    (∀ (h : Nat) (s : World Nat (List Nat)), (Marker.call h s).state.router = s.router) ∧
    (∀ op ∈ ([.addRoute "credits" (.target 1), .navigate "credits", .navigate "missing"]
        : List (RouterCall Nat)), op.isAddRouteOrNavigate = true) ∧
    ((Router.performAll Marker.call
        [.addRoute "credits" (.target 1), .navigate "credits", .navigate "missing"]
        { router := Router.new none, env := [] }).router.getCurrentRoute = "home" ∨
      ((Router.performAll Marker.call
          [.addRoute "credits" (.target 1), .navigate "credits", .navigate "missing"]
          { router := Router.new none, env := [] }).router.routes_
        (Router.performAll Marker.call
          [.addRoute "credits" (.target 1), .navigate "credits", .navigate "missing"]
          { router := Router.new none, env := [] }).router.getCurrentRoute).isSome
        = true) ∧
    (Router.performAll Marker.call
        [.addRoute "credits" (.target 1), .navigate "credits", .navigate "missing"]
        { router := Router.new none, env := [] }).router.getCurrentRoute = "credits" :=
  ⟨fun _ _ => rfl, by decide,
    C22_route_meaningful_without_setter Marker.call none []
      [.addRoute "credits" (.target 1), .navigate "credits", .navigate "missing"]
      (fun _ _ => rfl) (by decide),
    rfl⟩

/-- C23: `MainLayout` forwards navigation events safely.  The callback it
hands to its `Navigation` is the forwarding closure, and a constructed
`MainLayout` has no navigation callback until `setNavigationCallback` stores
one.  For every page string `p`: when a callback `c` is installed, the
forwarding closure calls `c` exactly once, with `p`, and ends as that call
ends; when none is installed it calls nothing, raises nothing and returns
with the state unchanged. -/
theorem C23_forwarding_is_safe {C σ : Type} (callNav : C → String → σ → Outcome σ)
    (self : σ → Views.Layouts.MainLayout C) (p : String) (s : σ)
    (m : Views.Layouts.MainLayout C) (callback : StdFunction C) :
    (Views.Layouts.MainLayout.new : Views.Layouts.MainLayout C).getNavigation.onNavigate_
      = .target .forward ∧
    (Views.Layouts.MainLayout.new : Views.Layouts.MainLayout C).navigationCallback_
      = .empty ∧
    (m.setNavigationCallback callback).navigationCallback_ = callback ∧
    Views.Layouts.MainLayoutLambda.call callNav self .forward p s
      = (Views.Layouts.MainLayout.forward callNav self p s).outcome ∧
    (∀ c : C, (self s).navigationCallback_ = .target c →
      (Views.Layouts.MainLayout.forward callNav self p s).called = [(.target c, p)] ∧
      (Views.Layouts.MainLayout.forward callNav self p s).outcome = callNav c p s) ∧
    ((self s).navigationCallback_ = .empty →
      (Views.Layouts.MainLayout.forward callNav self p s).called = [] ∧
      (Views.Layouts.MainLayout.forward callNav self p s).outcome = .returned s ∧
      (Views.Layouts.MainLayout.forward callNav self p s).outcome.exn = none) := by
  refine ⟨rfl, rfl, rfl, rfl, ?_, ?_⟩
  · intro c hc
    unfold Views.Layouts.MainLayout.forward
    rw [hc]
    exact ⟨rfl, rfl⟩
  · intro hc
    unfold Views.Layouts.MainLayout.forward
    rw [hc]
    exact ⟨rfl, rfl, rfl⟩

/-- C23, at concrete inputs: in the constructed application, whose navigation
callback runs `handleNavigation`, the forwarding closure called with
`"credits"` calls that callback once and ends in the state
`handleNavigation("credits")` leads to, and so does a click on the Credits
item; on a `MainLayout` without callback the forwarding closure does nothing. -/
theorem C23_forwarding_is_safe_witness :
    Application.setupApplication.mainLayout.navigationCallback_
      = .target .handleNavigation ∧
    (Views.Layouts.MainLayout.forward Application.callNavigation Application.mainLayout
        "credits" Application.setupApplication).called
      = [(.target .handleNavigation, "credits")] ∧
    (Views.Layouts.MainLayout.forward Application.callNavigation Application.mainLayout
        "credits" Application.setupApplication).outcome
      = .returned (Application.handleNavigation "credits" Application.setupApplication) ∧
    Views.Components.Navigation.creditsClicked
        (Views.Layouts.MainLayoutLambda.call Application.callNavigation
          Application.mainLayout)
        (fun app => (Application.mainLayout app).getNavigation) Application.setupApplication
      = .returned (Application.handleNavigation "credits" Application.setupApplication) ∧
    (Views.Layouts.MainLayout.forward
        (fun (_ : NavigationLambda) (_ : String)
          (layout : Views.Layouts.MainLayout NavigationLambda) => Outcome.returned layout)
        (fun layout => layout) "credits" Views.Layouts.MainLayout.new).called = [] ∧
    (Views.Layouts.MainLayout.forward
        (fun (_ : NavigationLambda) (_ : String)
          (layout : Views.Layouts.MainLayout NavigationLambda) => Outcome.returned layout)
        (fun layout => layout) "credits" Views.Layouts.MainLayout.new).outcome
      = .returned Views.Layouts.MainLayout.new :=
  have h1 := (C23_forwarding_is_safe Application.callNavigation Application.mainLayout
    "credits" Application.setupApplication Views.Layouts.MainLayout.new .empty).2.2.2.2.1
    .handleNavigation rfl
  have h2 := (C23_forwarding_is_safe
    (fun (_ : NavigationLambda) (_ : String)
      (layout : Views.Layouts.MainLayout NavigationLambda) => Outcome.returned layout)
    (fun layout => layout) "credits" Views.Layouts.MainLayout.new
    Views.Layouts.MainLayout.new .empty).2.2.2.2.2 rfl
  ⟨rfl, h1.1, h1.2, rfl, h2.1, h2.2.1⟩

/-- C24: the monolithic and the componentised page switch agree on
presentation state.  On a `MainLayout` whose two navigation items exist,
`CSPNetApp::showHomePage` and `MainLayout::navigateToPage("home")` both end
with stack index `0`, Home item class `"nav-item active"` and Credits item
class `"nav-item"`; `CSPNetApp::showCreditsPage` and
`MainLayout::navigateToPage("credits")` both end with index `1`, Home class
`"nav-item"` and Credits class `"nav-item active"`; for every other string
`MainLayout::navigateToPage` returns the layout unchanged. -/
theorem C24_page_switch_agrees {C : Type} (a : CSPNetApp)
    (m : Views.Layouts.MainLayout C) (home credits : Wt.WText)
    (hhome : m.getNavigation.homeNavItem_ = some home)
    (hcredits : m.getNavigation.creditsNavItem_ = some credits) :
    (a.showHomePage.contentStack_.currentIndex = 0 ∧
      (m.navigateToPage "home").getContentStack.currentIndex = 0) ∧
    (a.showHomePage.homeNavItem_.styleClass = "nav-item active" ∧
      (m.navigateToPage "home").getNavigation.homeClass = some "nav-item active") ∧
    (a.showHomePage.creditsNavItem_.styleClass = "nav-item" ∧
      (m.navigateToPage "home").getNavigation.creditsClass = some "nav-item") ∧
    (a.showCreditsPage.contentStack_.currentIndex = 1 ∧
      (m.navigateToPage "credits").getContentStack.currentIndex = 1) ∧
    (a.showCreditsPage.homeNavItem_.styleClass = "nav-item" ∧
      (m.navigateToPage "credits").getNavigation.homeClass = some "nav-item") ∧
    (a.showCreditsPage.creditsNavItem_.styleClass = "nav-item active" ∧
      (m.navigateToPage "credits").getNavigation.creditsClass = some "nav-item active") ∧
    (∀ p : String, p ≠ "home" → p ≠ "credits" → m.navigateToPage p = m) := by
  have hh : m.navigation_.homeNavItem_ = some home := hhome
  have hc : m.navigation_.creditsNavItem_ = some credits := hcredits
  refine ⟨⟨rfl, rfl⟩, ⟨rfl, ?_⟩, ⟨rfl, ?_⟩, ⟨rfl, rfl⟩, ⟨rfl, ?_⟩, ⟨rfl, ?_⟩, ?_⟩
  · simp [Views.Layouts.MainLayout.navigateToPage, Views.Layouts.MainLayout.getNavigation,
      Views.Components.Navigation.setActivePage,
      Views.Components.Navigation.updateNavigationStyles,
      Views.Components.Navigation.homeClass, hh, hc, Wt.WText.setStyleClass]
  · simp [Views.Layouts.MainLayout.navigateToPage, Views.Layouts.MainLayout.getNavigation,
      Views.Components.Navigation.setActivePage,
      Views.Components.Navigation.updateNavigationStyles,
      Views.Components.Navigation.creditsClass, hh, hc, Wt.WText.setStyleClass]
  · simp [Views.Layouts.MainLayout.navigateToPage, Views.Layouts.MainLayout.getNavigation,
      Views.Components.Navigation.setActivePage,
      Views.Components.Navigation.updateNavigationStyles,
      Views.Components.Navigation.homeClass, hh, hc, Wt.WText.setStyleClass]
  · simp [Views.Layouts.MainLayout.navigateToPage, Views.Layouts.MainLayout.getNavigation,
      Views.Components.Navigation.setActivePage,
      Views.Components.Navigation.updateNavigationStyles,
      Views.Components.Navigation.creditsClass, hh, hc, Wt.WText.setStyleClass]
  · intro p hp1 hp2
    simp [Views.Layouts.MainLayout.navigateToPage, hp1, hp2]

/-- C24, at a concrete input: the constructed monolithic application and the
constructed `MainLayout`, switched to the credits page. -/
theorem C24_page_switch_agrees_witness :
    (Views.Layouts.MainLayout.new : Views.Layouts.MainLayout NavigationLambda
      ).getNavigation.homeNavItem_ = some { text := "Home", styleClass := "nav-item active" } ∧
    (Views.Layouts.MainLayout.new : Views.Layouts.MainLayout NavigationLambda
      ).getNavigation.creditsNavItem_ = some { text := "Credits", styleClass := "nav-item" } ∧
    CSPNetApp.new.showCreditsPage.contentStack_.currentIndex = 1 ∧
    ((Views.Layouts.MainLayout.new : Views.Layouts.MainLayout NavigationLambda
      ).navigateToPage "credits").getContentStack.currentIndex = 1 ∧
    CSPNetApp.new.showCreditsPage.homeNavItem_.styleClass = "nav-item" ∧
    ((Views.Layouts.MainLayout.new : Views.Layouts.MainLayout NavigationLambda
      ).navigateToPage "credits").getNavigation.homeClass = some "nav-item" ∧
    CSPNetApp.new.showCreditsPage.creditsNavItem_.styleClass = "nav-item active" ∧
    ((Views.Layouts.MainLayout.new : Views.Layouts.MainLayout NavigationLambda
      ).navigateToPage "credits").getNavigation.creditsClass = some "nav-item active" ∧
    (Views.Layouts.MainLayout.new : Views.Layouts.MainLayout NavigationLambda
      ).navigateToPage "about" = Views.Layouts.MainLayout.new :=
  have h := C24_page_switch_agrees CSPNetApp.new
    (Views.Layouts.MainLayout.new : Views.Layouts.MainLayout NavigationLambda)
    { text := "Home", styleClass := "nav-item active" }
    { text := "Credits", styleClass := "nav-item" } rfl rfl
  ⟨rfl, rfl, h.2.2.2.1.1, h.2.2.2.1.2, h.2.2.2.2.1.1, h.2.2.2.2.1.2, h.2.2.2.2.2.1.1,
    h.2.2.2.2.2.1.2, h.2.2.2.2.2.2 "about" (by decide) (by decide)⟩

/-- C25: the data model agrees with what the pages hard-code.  The
(title, description) pairs of `AppData::getFeatures()`, in order, are the
texts of the three feature cards `HomePageBuilder::buildFeaturesSection`
creates, and that section is what `createFeatureCard` gives on each feature
in turn; the (name, role) pairs of `AppData::getCredits()`, in order, are the
texts of the two credit cards `CreditsPageBuilder::buildCreditsGridSection`
creates, and that section is what `createCreditCard` gives on each credit in
turn. -/
theorem C25_data_model_matches_pages :
    Builders.HomePageBuilder.buildFeaturesSection.cards
      = Models.AppData.getFeatures.map (fun f => some (f.title, f.description)) ∧
    Builders.HomePageBuilder.buildFeaturesSection.cards.length = 3 ∧
    Builders.HomePageBuilder.buildFeaturesSection
      = .container "features" (Models.AppData.getFeatures.map
          (fun f => Components.ComponentFactory.createFeatureCard f.title f.description)) ∧
    Builders.CreditsPageBuilder.buildCreditsGridSection.cards
      = Models.AppData.getCredits.map (fun c => some (c.name, c.role)) ∧
    Builders.CreditsPageBuilder.buildCreditsGridSection.cards.length = 2 ∧
    Builders.CreditsPageBuilder.buildCreditsGridSection
      = .container "credits-grid" (Models.AppData.getCredits.map
          (fun c => Components.ComponentFactory.createCreditCard c.name c.role)) := by
  refine ⟨by decide, by decide, rfl, by decide, by decide, rfl⟩

end App
end CSPNet
